import Mathlib

/-!
MyTube: controllers over an explicit document store

A shallow embedding of the request handlers of the MyTube backend
(`src/controllers/*.js`, `src/utils/cloudinary.js`).  Every handler is a pure
function from the request and the store state to a reply (an `apiResponse` or a
thrown error) together with the store state it leaves behind.

Conventions of the embedding

* An `ObjectId` is the number a 12-byte identifier denotes.  Route and body
  parameters arrive as strings; `castObjectId` is the driver's cast of such a
  string and is kept as a parameter of every handler that uses it, so that the
  results hold for whatever the installed driver accepts.  `hexObjectId` is the
  usual 24-hex-digit cast, used in the concrete examples.
* A collection is the list of its documents in natural (insertion) order.
  `Model.create` appends a document whose `_id` is the store's `nextId`.
* `req.user` is set by the `verifyJWT` middleware on every route; `Ctx.user`
  is its `_id`, `Ctx.now` the clock reading used for `createdAt`.
* The object-storage collaborator is observed through the log of the calls made
  to it (`Store.cloudLog`); what it answers is given by `Ctx.upload` and
  `Ctx.destroy`.
* The `$sort` stage of the store is a parameter of the listing handlers that
  build one (`StoreSort`): its verdict on the sort object and the order in which
  it passes the rows on.  `StoreSort.Sorts` states what a `$sort` with a single
  key promises, which leaves the order of rows with equal keys open;
  `stableStore` and `reversingStore` are two stores that keep the promise, the
  first one used in the concrete examples.
-/

namespace MyTube

/-! ## Data model -/

abbrev ObjectId := Nat

structure User where
  _id : ObjectId
  username : String
  email : String := ""
  fullname : String := ""
  avatar : String := ""
  coverImage : String := ""
  password : String := ""
  refreshToken : Option String := none
  watchHistory : List ObjectId := []
deriving DecidableEq, Repr

structure Video where
  _id : ObjectId
  title : String
  description : String
  videoFile : String
  thumbnail : String
  duration : Nat := 0
  views : Nat := 0
  isPublished : Bool := true
  owner : ObjectId
  createdAt : Nat := 0
deriving DecidableEq, Repr

structure Comment where
  _id : ObjectId
  content : String
  video : ObjectId
  owner : ObjectId
  createdAt : Nat := 0
deriving DecidableEq, Repr

structure Tweet where
  _id : ObjectId
  content : String
  owner : ObjectId
  createdAt : Nat := 0
deriving DecidableEq, Repr

/-- Like document: the liker and whichever of `video`, `comment`, `tweet` the
creating handler set. -/
structure Like where
  _id : ObjectId
  video : Option ObjectId := none
  comment : Option ObjectId := none
  tweet : Option ObjectId := none
  likedBy : ObjectId
  createdAt : Nat := 0
deriving DecidableEq, Repr

structure Playlist where
  _id : ObjectId
  name : String
  description : String
  videos : List ObjectId
  owner : ObjectId
  createdAt : Nat := 0
deriving DecidableEq, Repr

structure Subscription where
  _id : ObjectId
  subscriber : ObjectId
  channel : ObjectId
  createdAt : Nat := 0
deriving DecidableEq, Repr

/-- One call made to the object-storage collaborator. -/
inductive CloudCall where
  | upload (localPath : String)
  | destroy (publicId : String) (resourceType : String)
deriving DecidableEq, Repr

structure Store where
  users : List User := []
  videos : List Video := []
  comments : List Comment := []
  tweets : List Tweet := []
  likes : List Like := []
  playlists : List Playlist := []
  subscriptions : List Subscription := []
  cloudLog : List CloudCall := []
  localFiles : List String := []
  nextId : ObjectId := 0
deriving DecidableEq, Repr

/-- Request context: the authenticated user, the clock, and the replies of the
object-storage collaborator (`none` when the call throws). -/
structure Ctx where
  user : ObjectId
  now : Nat := 0
  upload : String → Option String := fun _ => none
  destroy : String → String → Option String := fun _ _ => some "ok"

/-- What a handler can throw: an `apiError`, a `TypeError` raised by reading a
property of `null`, the driver's `CastError`, a file-system error, or an error
raised by the store for a pipeline, with the store's message. -/
inductive Failure where
  | apiError (statusCode : Nat) (message : String)
  | typeError (message : String)
  | castError
  | fsError
  | storeError (message : String)
deriving DecidableEq, Repr

/-- Reply sent with `res.status(status).json(new apiResponse(statusCode, data, message))`. -/
structure ApiResponse (α : Type) where
  status : Nat
  statusCode : Nat
  data : α
  message : String
deriving DecidableEq, Repr

abbrev Handler (α : Type) := Except Failure (ApiResponse α) × Store

/-! ## Identifiers -/

def hexDigit (c : Char) : Option Nat :=
  if 48 ≤ c.toNat ∧ c.toNat ≤ 57 then some (c.toNat - 48)
  else if 97 ≤ c.toNat ∧ c.toNat ≤ 102 then some (c.toNat - 87)
  else if 65 ≤ c.toNat ∧ c.toNat ≤ 70 then some (c.toNat - 55)
  else none

def hexValue : List Char → Nat → Option Nat
  | [], acc => some acc
  | c :: cs, acc =>
    match hexDigit c with
    | some d => hexValue cs (16 * acc + d)
    | none => none

/-- The 24-hex-digit form of an identifier. -/
def hexObjectId (s : String) : Option ObjectId :=
  if s.data.length = 24 then hexValue s.data 0 else none

/-- Truthiness of an optional string field of `req.body`, `req.params` or
`req.query`: absent and empty are falsy. -/
def truthy : Option String → Bool
  | none => false
  | some s => s != ""

/-- Write to the first document that matches, as `updateOne`, `findByIdAndUpdate`
and `doc.save()` do. -/
def updateOne {α : Type} (p : α → Bool) (f : α → α) : List α → List α
  | [] => []
  | d :: ds => if p d then f d :: ds else d :: updateOne p f ds

/-! ## utils/cloudinary.js -/

/-- Characters of `s.split(sep)` for a one-character separator. -/
def splitChars (sep : Char) : List Char → List (List Char)
  | [] => [[]]
  | c :: cs =>
    match splitChars sep cs with
    | [] => [[]]
    | part :: parts => if c = sep then [] :: part :: parts else (c :: part) :: parts

def startsWithChars : List Char → List Char → Bool
  | [], _ => true
  | _ :: _, [] => false
  | p :: ps, c :: cs => p == c && startsWithChars ps cs

/-- Characters of `s.includes(pat)`. -/
def includesChars (pat : List Char) : List Char → Bool
  | [] => pat.isEmpty
  | c :: cs => startsWithChars pat (c :: cs) || includesChars pat cs

/-- Value returned by `uploadOnCloudinary`: `null`, the upload response, or the
caught error object. -/
inductive UploadResult where
  | null
  | response (url : String)
  | error
deriving DecidableEq, Repr

/-- Model of `fs.unlinkSync`: `none` when the file does not exist (it throws). -/
def unlinkSync (path : String) (s : Store) : Option Store :=
  if path ∈ s.localFiles then
    some { s with localFiles := s.localFiles.filter (fun f => f != path) }
  else none

def uploadOnCloudinary (ctx : Ctx) (localPath : Option String) (s : Store) :
    Except Failure UploadResult × Store :=
  if !truthy localPath then (.ok .null, s)
  else
    let path := localPath.getD ""
    let s1 := { s with cloudLog := s.cloudLog ++ [.upload path] }
    match ctx.upload path with
    | some url =>
      match unlinkSync path s1 with
      | some s2 => (.ok (.response url), s2)
      | none => (.error .fsError, s1)
    | none =>
      match unlinkSync path s1 with
      | some s2 => (.ok .error, s2)
      | none => (.error .fsError, s1)

def deleteFromCloudinary (ctx : Ctx) (url : Option String) (s : Store) :
    Option String × Store :=
  if !truthy url then (none, s)
  else
    let url := (url.getD "").data
    let urlParts := splitChars '/' url
    let fileName := urlParts.getLastD []
    let publicId := String.mk ((splitChars '.' fileName).headD [])
    let resourceType := if includesChars "/video/".data url then "video" else "image"
    (ctx.destroy publicId resourceType,
      { s with cloudLog := s.cloudLog ++ [.destroy publicId resourceType] })

section Controllers

variable (castObjectId : String → Option ObjectId)

/-- Model of `mongoose.isValidObjectId` and `mongoose.Types.ObjectId.isValid`:
the string can be cast to an identifier. -/
def isValidObjectId (s : String) : Bool :=
  (castObjectId s).isSome

/-! ## like.controller.js -/

def toggleVideoLike (ctx : Ctx) (videoId : String) (s : Store) : Handler (Option Like) :=
  match castObjectId videoId with
  | none => (.error (.apiError 400 "Invalid video's id"), s)
  | some vid =>
    match s.videos.find? (fun v => v._id == vid) with
    | none => (.error (.apiError 404 "Video not found"), s)
    | some _ =>
      match s.likes.find? (fun l => l.video == some vid && l.likedBy == ctx.user) with
      | some existingLike =>
        (.ok ⟨200, 200, none, "Video unliked Successfully"⟩,
          { s with likes := s.likes.eraseP (fun l => l._id == existingLike._id) })
      | none =>
        let like : Like :=
          { _id := s.nextId, video := some vid, likedBy := ctx.user, createdAt := ctx.now }
        (.ok ⟨200, 200, some like, "Video Liked Successfully"⟩,
          { s with likes := s.likes ++ [like], nextId := s.nextId + 1 })

def toggleCommentLike (ctx : Ctx) (commentId : String) (s : Store) : Handler (Option Like) :=
  match castObjectId commentId with
  | none => (.error (.apiError 400 "Invalid comment's id"), s)
  | some cid =>
    match s.comments.find? (fun c => c._id == cid) with
    | none => (.error (.apiError 404 "Comment not found"), s)
    | some _ =>
      match s.likes.find? (fun l => l.comment == some cid && l.likedBy == ctx.user) with
      | some existingLike =>
        (.ok ⟨200, 200, none, "Comment unliked Successfully"⟩,
          { s with likes := s.likes.eraseP (fun l => l._id == existingLike._id) })
      | none =>
        let like : Like :=
          { _id := s.nextId, comment := some cid, likedBy := ctx.user, createdAt := ctx.now }
        (.ok ⟨200, 200, some like, "Comment liked Successfully"⟩,
          { s with likes := s.likes ++ [like], nextId := s.nextId + 1 })

def toggleTweetLike (ctx : Ctx) (tweetId : String) (s : Store) : Handler (Option Like) :=
  match castObjectId tweetId with
  | none => (.error (.apiError 400 "Invalid tweet's id"), s)
  | some tid =>
    match s.tweets.find? (fun t => t._id == tid) with
    | none => (.error (.apiError 404 "Tweet not found"), s)
    | some _ =>
      match s.likes.find? (fun l => l.tweet == some tid && l.likedBy == ctx.user) with
      | some existingLike =>
        (.ok ⟨200, 200, none, "Tweet unliked Successfully"⟩,
          { s with likes := s.likes.eraseP (fun l => l._id == existingLike._id) })
      | none =>
        let like : Like :=
          { _id := s.nextId, tweet := some tid, likedBy := ctx.user, createdAt := ctx.now }
        (.ok ⟨200, 200, some like, "Tweet like Successfully"⟩,
          { s with likes := s.likes ++ [like], nextId := s.nextId + 1 })

/-! ## subscription.controller.js -/

def toggleSubscription (ctx : Ctx) (channelId : String) (s : Store) :
    Handler (Option Subscription) :=
  match castObjectId channelId with
  | none => (.error (.apiError 400 "Invalid channel's id"), s)
  | some cid =>
    match s.users.find? (fun u => u._id == cid) with
    | none => (.error (.apiError 404 "Channel not found"), s)
    | some channel =>
      if channel._id = ctx.user then (.error (.apiError 403 "Not allowed"), s)
      else
        match s.subscriptions.find? (fun x => x.subscriber == ctx.user && x.channel == cid) with
        | some unsubscribed =>
          (.ok ⟨200, 200, none, "User Unsubscribed the channel Successfully"⟩,
            { s with subscriptions := s.subscriptions.eraseP (fun x => x._id == unsubscribed._id) })
        | none =>
          let subscribed : Subscription :=
            { _id := s.nextId, subscriber := ctx.user, channel := cid, createdAt := ctx.now }
          (.ok ⟨200, 200, some subscribed, "User Unsubscribed the channel Successfully"⟩,
            { s with subscriptions := s.subscriptions ++ [subscribed], nextId := s.nextId + 1 })

/-! ## tweet.controller.js -/

def updateTweet (ctx : Ctx) (tweetId : String) (content : Option String) (s : Store) :
    Handler (Option Tweet) :=
  match castObjectId tweetId with
  | none => (.error (.apiError 400 "Invalid Tweet id"), s)
  | some tid =>
    if !truthy content then (.error (.apiError 400 "Tweet must contain content"), s)
    else
      match s.tweets.find? (fun t => t._id == tid) with
      | none => (.error (.apiError 500 "Something went wrong while updating tweet"), s)
      | some tweet =>
        if tweet.owner ≠ ctx.user then (.error (.apiError 403 "Not allowed"), s)
        else
          let saved : Tweet := { tweet with content := content.getD "" }
          (.ok ⟨200, 200, some saved, "Tweet updated Successfully"⟩,
            { s with tweets := updateOne (fun t => t._id == tid) (fun _ => saved) s.tweets })

def deleteTweet (ctx : Ctx) (tweetId : String) (s : Store) : Handler (Option Tweet) :=
  match castObjectId tweetId with
  | none => (.error (.apiError 400 "Invalid Tweet id"), s)
  | some tid =>
    match s.tweets.find? (fun t => t._id == tid) with
    | none => (.error (.apiError 404 "Tweet not found"), s)
    | some tweet =>
      if tweet.owner ≠ ctx.user then (.error (.apiError 403 "Not Allowed!"), s)
      else
        (.ok ⟨200, 200, none, "Tweet deleted Successfully"⟩,
          { s with tweets := s.tweets.eraseP (fun t => t._id == tweet._id) })

/-- Result of `.populate(path, "username avatar")`. -/
structure UserSummary where
  _id : ObjectId
  username : String
  avatar : String
deriving DecidableEq, Repr

def populateUser (s : Store) (id : ObjectId) : Option UserSummary :=
  (s.users.find? (fun u => u._id == id)).map (fun u => ⟨u._id, u.username, u.avatar⟩)

/-- Row of `getUserTweets`: `.select("owner content")` with the owner populated. -/
structure TweetRow where
  _id : ObjectId
  content : String
  owner : Option UserSummary
deriving DecidableEq, Repr

/-- Payload of `getUserTweets`: `[]` or `{ tweets, totalTweets }`. -/
inductive TweetsData where
  | empty
  | page (tweets : List TweetRow) (totalTweets : Nat)
deriving DecidableEq, Repr

/-- Cursor `.skip(n)` for `n ≥ 0`. -/
def cursorSkip {α : Type} (n : Int) (docs : List α) : List α :=
  docs.drop n.toNat

/-- Cursor `.limit(n)` for `n ≥ 0`; a limit of `0` is no limit. -/
def cursorLimit {α : Type} (n : Int) (docs : List α) : List α :=
  if n = 0 then docs else docs.take n.toNat

/-- The user's tweets under `.sort({ createdAt: -1 })`. -/
def tweetsNewestFirst (s : Store) (uid : ObjectId) : List Tweet :=
  (s.tweets.filter (fun t => t.owner == uid)).insertionSort
    (fun a b => b.createdAt ≤ a.createdAt)

def getUserTweets (userId : String) (page limit : Option Int) (s : Store) :
    Handler TweetsData :=
  let page := page.getD 1
  let limit := limit.getD 10
  if page < 1 then (.error (.apiError 400 "Page must be 1 or higher"), s)
  else if limit < 1 then (.error (.apiError 400 "Limit must be 1 or higher"), s)
  else
    match castObjectId userId with
    | none => (.error (.apiError 400 "Invalid Tweet id"), s)
    | some uid =>
      let skip := (page - 1) * limit
      let tweets := cursorLimit skip (cursorSkip skip (tweetsNewestFirst s uid))
      let rows := tweets.map (fun t => (⟨t._id, t.content, populateUser s t.owner⟩ : TweetRow))
      let totalTweets := (s.tweets.filter (fun t => t.owner == uid)).length
      if rows.length < 1 then (.ok ⟨200, 200, .empty, "There is no tweet of the user"⟩, s)
      else (.ok ⟨200, 200, .page rows totalTweets, "All the user's tweet fetched Successfully"⟩, s)

/-! ## comment.controller.js -/

def updateComment (ctx : Ctx) (commentId : String) (content : Option String) (s : Store) :
    Handler (Option Comment) :=
  match castObjectId commentId with
  | none => (.error (.apiError 400 "Invalid comment's id"), s)
  | some cid =>
    if !truthy content then (.error (.apiError 400 "Comment's content is required"), s)
    else
      match s.comments.find? (fun c => c._id == cid) with
      | none => (.error (.apiError 500 "Something went wrong while updating comment"), s)
      | some comment =>
        if comment.owner ≠ ctx.user then (.error (.apiError 403 "Not allowed"), s)
        else
          let saved : Comment := { comment with content := content.getD "" }
          (.ok ⟨200, 200, some saved, "Comment updated Successfully"⟩,
            { s with comments := updateOne (fun c => c._id == cid) (fun _ => saved) s.comments })

def deleteComment (ctx : Ctx) (commentId : String) (s : Store) : Handler (Option Comment) :=
  match castObjectId commentId with
  | none => (.error (.apiError 400 "Invalid comment's id"), s)
  | some cid =>
    match s.comments.find? (fun c => c._id == cid) with
    | none => (.error (.apiError 500 "Something went wrong while updating comment"), s)
    | some comment =>
      if comment.owner ≠ ctx.user then (.error (.apiError 403 "Not allowed"), s)
      else
        (.ok ⟨200, 200, none, "Comment deleted Successfully"⟩,
          { s with comments := s.comments.eraseP (fun c => c._id == comment._id) })

/-! ## playlist.controller.js -/

def createPlaylist (ctx : Ctx) (name description : Option String)
    (videos : Option (List String)) (s : Store) : Handler (Option Playlist) :=
  let videos := videos.getD []
  if !(truthy name && truthy description) then
    (.error (.apiError 400 "Both name and description of the playlist is required"), s)
  else
    let validVideos := videos.filter (fun id => isValidObjectId castObjectId id)
    let existingVideos :=
      ((s.videos.filter (fun v => validVideos.any (fun id => castObjectId id == some v._id))).map
        (fun v => v._id)).dedup
    if existingVideos.length < 1 then
      (.error (.apiError 400 "Playlist must consist of at least one video"), s)
    else
      let playlist : Playlist :=
        { _id := s.nextId, name := name.getD "", description := description.getD "",
          videos := existingVideos, owner := ctx.user, createdAt := ctx.now }
      (.ok ⟨200, 200, some playlist, "Playlist created Successfully"⟩,
        { s with playlists := s.playlists ++ [playlist], nextId := s.nextId + 1 })

def addVideoToPlaylist (ctx : Ctx) (playlistId videoId : String) (s : Store) :
    Handler (Option Playlist) :=
  if !(playlistId != "" && videoId != "") then
    (.error (.apiError 400 "Both playlist and video ids are required"), s)
  else
    match castObjectId videoId with
    | none => (.error .castError, s)
    | some vid =>
      match s.videos.find? (fun v => v._id == vid) with
      | none => (.error (.apiError 404 "Video not found"), s)
      | some video =>
        if video.owner ≠ ctx.user then (.error (.apiError 403 "Not allowed"), s)
        else
          match castObjectId playlistId with
          | none => (.error .castError, s)
          | some pid =>
            match s.playlists.find? (fun p => p._id == pid) with
            | none => (.error (.apiError 404 "Playlist not found"), s)
            | some playlist =>
              if playlist.owner ≠ ctx.user then (.error (.apiError 403 "Not allowed"), s)
              else if playlist.videos.any (fun v => castObjectId videoId == some v) then
                (.error (.apiError 404 "Video is already present in the playlist"), s)
              else
                let addToSet : Playlist → Playlist := fun p =>
                  { p with videos := if vid ∈ p.videos then p.videos else p.videos ++ [vid] }
                let s1 := { s with playlists := updateOne (fun p => p._id == pid) addToSet s.playlists }
                match s1.playlists.find? (fun p => p._id == pid) with
                | none =>
                  (.error (.apiError 500 "Something went wrong while adding video to playlist"), s1)
                | some newPlaylist =>
                  (.ok ⟨200, 200, some newPlaylist, "Video added to the playlist Successfully"⟩, s1)

def removeVideoFromPlaylist (ctx : Ctx) (playlistId videoId : String) (s : Store) :
    Handler (Option Playlist) :=
  if !(playlistId != "" && videoId != "") then
    (.error (.apiError 400 "Both playlist and video ids are required"), s)
  else
    match castObjectId playlistId with
    | none => (.error .castError, s)
    | some pid =>
      match s.playlists.find? (fun p => p._id == pid) with
      | none => (.error (.apiError 404 "Playlist not found"), s)
      | some playlist =>
        if playlist.owner ≠ ctx.user then (.error (.apiError 403 "Not allowed"), s)
        else if !playlist.videos.any (fun v => castObjectId videoId == some v) then
          (.error (.apiError 404 "Video not present in the playlist"), s)
        else
          let pull : Playlist → Playlist := fun p =>
            { p with videos := p.videos.filter (fun v => !(castObjectId videoId == some v)) }
          let s1 := { s with playlists := updateOne (fun p => p._id == pid) pull s.playlists }
          match s1.playlists.find? (fun p => p._id == pid) with
          | none =>
            (.error (.apiError 500
              "Something went wrong while deleting the vidoe from the playlist"), s1)
          | some newPlaylist =>
            (.ok ⟨200, 200, some newPlaylist, "Video deleted from the playlist Successfully"⟩, s1)

def deletePlaylist (playlistId : String) (s : Store) : Handler (Option Playlist) :=
  match castObjectId playlistId with
  | none => (.error (.apiError 400 "Playlist's id is missing"), s)
  | some pid =>
    match s.playlists.find? (fun p => p._id == pid) with
    | none => (.error (.apiError 404 "Playlist Not found"), s)
    | some _ =>
      (.ok ⟨200, 200, none, "Playlist is deleted Successfully"⟩,
        { s with playlists := s.playlists.eraseP (fun p => p._id == pid) })

def updatePlaylist (playlistId : String) (name description : Option String) (s : Store) :
    Handler (Option Playlist) :=
  match castObjectId playlistId with
  | none => (.error (.apiError 400 "Invalid playlist's id"), s)
  | some pid =>
    if !(truthy name && truthy description) then
      (.error (.apiError 400 "Both name and description are required"), s)
    else
      let set : Playlist → Playlist := fun p =>
        { p with name := name.getD "", description := description.getD "" }
      let s1 := { s with playlists := updateOne (fun p => p._id == pid) set s.playlists }
      match s1.playlists.find? (fun p => p._id == pid) with
      | none => (.error (.apiError 404 "Playlist not found"), s1)
      | some playlist => (.ok ⟨200, 200, some playlist, "Playlist update Successfully"⟩, s1)

/-! ## video.controller.js -/

/-- The `message` of a thrown value, as read by `error?.message`. -/
def Failure.message : Failure → String
  | .apiError _ message => message
  | .typeError message => message
  | .castError => "Cast to ObjectId failed"
  | .fsError => "ENOENT: no such file or directory"
  | .storeError message => message

def nullOwnerMessage : String := "Cannot read properties of null (reading 'owner')"

def deleteVideo (ctx : Ctx) (id : String) (s : Store) : Handler (Option Video) :=
  match castObjectId id with
  | none => (.error (.apiError 404 "Invalid Video id"), s)
  | some vid =>
    match s.videos.find? (fun v => v._id == vid) with
    | none => (.error (.apiError 404 "Not found"), s)
    | some video =>
      let s1 := (deleteFromCloudinary ctx (some video.videoFile) s).2
      let s2 := (deleteFromCloudinary ctx (some video.thumbnail) s1).2
      if video.owner ≠ ctx.user then (.error (.apiError 403 "Not Allowed!"), s2)
      else
        (.ok ⟨200, 200, none, "video deleted successfully!"⟩,
          { s2 with videos := s2.videos.eraseP (fun v => v._id == video._id) })

/-- The `try` block of `updateVideoDetails`. -/
def updateVideoDetailsTry (ctx : Ctx) (id : String) (title description : Option String)
    (filePath : Option String) (s : Store) : Handler (Option Video) :=
  match castObjectId id with
  | none => (.error (.apiError 404 "Invalid Video id"), s)
  | some vid =>
    if !(truthy title && truthy description) then
      (.error (.apiError 404 "Title and description is required!"), s)
    else if !truthy filePath then (.error (.apiError 404 "Thumbnail is required!"), s)
    else
      match s.videos.find? (fun v => v._id == vid) with
      | none => (.error (.typeError nullOwnerMessage), s)
      | some video =>
        if video.owner ≠ ctx.user then (.error (.apiError 403 "Not Allowed!"), s)
        else
          let s1 := (deleteFromCloudinary ctx (some video.thumbnail) s).2
          match uploadOnCloudinary ctx filePath s1 with
          | (.error e, s2) => (.error e, s2)
          | (.ok .null, s2) => (.error (.apiError 404 "Thumbnail is required!"), s2)
          | (.ok thumbnail, s2) =>
            -- an `undefined` value under `$set` is dropped from the update
            let set : Video → Video := fun v =>
              { v with
                title := title.getD "", description := description.getD "",
                thumbnail := match thumbnail with
                  | .response url => url
                  | _ => v.thumbnail }
            let s3 := { s2 with videos := updateOne (fun v => v._id == vid) set s2.videos }
            match s3.videos.find? (fun v => v._id == vid) with
            | none =>
              (.error (.apiError 500 "Something went wrong while updating the video"), s3)
            | some updatedVideo =>
              (.ok ⟨200, 200, some updatedVideo, "Video updated Successfully!"⟩, s3)

/-- Handler `updateVideoDetails`: whatever the `try` block throws is caught and
thrown again as `apiError(500, error?.message || ...)`. -/
def updateVideoDetails (ctx : Ctx) (id : String) (title description : Option String)
    (filePath : Option String) (s : Store) : Handler (Option Video) :=
  match updateVideoDetailsTry castObjectId ctx id title description filePath s with
  | (.error e, s1) =>
    (.error (.apiError 500
      (if e.message != "" then e.message else "Something went wrong while updating the video")),
      s1)
  | (.ok r, s1) => (.ok r, s1)

def togglePublishedStatus (ctx : Ctx) (id : String) (s : Store) : Handler (Option Video) :=
  match castObjectId id with
  | none => (.error (.apiError 404 "Invalid Video id"), s)
  | some vid =>
    match s.videos.find? (fun v => v._id == vid) with
    | none => (.error (.typeError nullOwnerMessage), s)
    | some videoFound =>
      if videoFound.owner ≠ ctx.user then (.error (.apiError 403 "Not Allowed!"), s)
      else
        let flip : Video → Video := fun v => { v with isPublished := !v.isPublished }
        let s1 := { s with videos := updateOne (fun v => v._id == vid) flip s.videos }
        match s1.videos.find? (fun v => v._id == vid) with
        | none => (.error (.apiError 500 "Something went wrong while toggling the status"), s1)
        | some video => (.ok ⟨200, 200, some video, "Status is being toggled Successfully!"⟩, s1)

/-- Store left by a run of `toggleSubscription` requests, oldest first. -/
def toggleSubscriptionRun : List (Ctx × String) → Store → Store
  | [], s => s
  | (ctx, channelId) :: rest, s =>
    toggleSubscriptionRun rest (toggleSubscription castObjectId ctx channelId s).2

end Controllers

/-! ## Well-formed stores and observations -/

/-- The `_id`s of a collection are pairwise different and were all handed out
before `next` (the store's unique `_id` index). -/
def UniqueIds {α : Type} (key : α → ObjectId) (docs : List α) (next : ObjectId) : Prop :=
  (docs.map key).Nodup ∧ ∀ d ∈ docs, key d < next

instance {α : Type} (key : α → ObjectId) (docs : List α) (next : ObjectId) :
    Decidable (UniqueIds key docs next) := by
  unfold UniqueIds; infer_instance

/-- The (liker, video) pairs present in the store. -/
def videoLikePairs (s : Store) : List (ObjectId × ObjectId) :=
  s.likes.filterMap (fun l => l.video.map (fun v => (l.likedBy, v)))

/-- The (subscriber, channel) pairs present in the store. -/
def subscriptionPairs (s : Store) : List (ObjectId × ObjectId) :=
  s.subscriptions.map (fun x => (x.subscriber, x.channel))

/-- The two outcomes of a like toggle by `ctx.user` on the target `tid`, read
from a like by `target`, with reply and final store `r`: when no like of the
store is for the pair, one like for the pair is appended and returned; when the
like `l` of the store is for the pair, `l` is removed.  Either way the reply is
a success and the other likes are as before. -/
def LikeToggled (target : Like → Option ObjectId) (tid : ObjectId) (ctx : Ctx) (s : Store)
    (r : Handler (Option Like)) : Prop :=
  ((∀ l ∈ s.likes, ¬ (target l = some tid ∧ l.likedBy = ctx.user)) →
    ∃ like message, target like = some tid ∧ like.likedBy = ctx.user ∧
      r = (.ok ⟨200, 200, some like, message⟩,
        { s with likes := s.likes ++ [like], nextId := s.nextId + 1 })) ∧
  (∀ l ∈ s.likes, target l = some tid → l.likedBy = ctx.user →
    ∃ message, r = (.ok ⟨200, 200, none, message⟩, { s with likes := s.likes.erase l }))

/-- Store used in the examples: two users, one video, one comment, one tweet. -/
def demoStore : Store :=
  { users := [{ _id := 1, username := "ada" }, { _id := 2, username := "bob" }],
    videos := [{ _id := 5, title := "cats", description := "a cat video",
                 videoFile := "http://res.cloudinary.com/demo/video/upload/v1/clip.mp4",
                 thumbnail := "http://res.cloudinary.com/demo/image/upload/v1/thumb.png",
                 owner := 1 }],
    comments := [{ _id := 6, content := "nice", video := 5, owner := 1 }],
    tweets := [{ _id := 7, content := "hello", owner := 1 }],
    nextId := 20 }

def id1 : String := "000000000000000000000001"
def id2 : String := "000000000000000000000002"
def id5 : String := "000000000000000000000005"
def id6 : String := "000000000000000000000006"
def id7 : String := "000000000000000000000007"

/-- The example store in which user 2 already likes video 5. -/
def likedStore : Store :=
  { demoStore with likes := [{ _id := 8, video := some 5, likedBy := 2 }] }

/-- A store holding two subscription records for the pair (subscriber 2, channel 1). -/
def twiceSubscribedStore : Store :=
  { demoStore with subscriptions := [⟨8, 2, 1, 0⟩, ⟨9, 2, 1, 0⟩] }

/-- A store in which user 1 has written four tweets, the newest last. -/
def tweetStore : Store :=
  { demoStore with
    tweets := [⟨10, "one", 1, 100⟩, ⟨11, "two", 1, 200⟩, ⟨12, "three", 1, 300⟩,
               ⟨13, "four", 1, 400⟩] }

def id3 : String := "000000000000000000000003"

/-- A store in which user 1 owns the playlist 3. -/
def playlistStore : Store :=
  { demoStore with
    playlists := [{ _id := 3, name := "mix", description := "my mix", videos := [5], owner := 1 }] }

/-- The identifier `v` is named by one of the supplied strings, which is then
well-formed, and is the `_id` of a stored video. -/
def Qualifies (castObjectId : String → Option ObjectId) (s : Store) (supplied : List String)
    (v : ObjectId) : Prop :=
  (∃ raw ∈ supplied, castObjectId raw = some v) ∧ ∃ x ∈ s.videos, x._id = v

/-- No video occurs twice in the video list of any playlist of the store. -/
def PlaylistsNodup (s : Store) : Prop :=
  ∀ p ∈ s.playlists, p.videos.Nodup

/-- No subscription record has its subscriber as its channel. -/
def NoSelfSubscription (s : Store) : Prop :=
  ∀ x ∈ s.subscriptions, x.subscriber ≠ x.channel

/-! ## Values, sort order and pagination -/

/-- Value of a field as the store compares it; an object is kept with its
string-valued fields, which is all the projected rows contain. -/
inductive Value where
  | null
  | num (n : Nat)
  | str (s : String)
  | doc (fields : List (String × String))
  | oid (id : ObjectId)
  | bool (b : Bool)
  | date (t : Nat)
deriving DecidableEq, Repr

/-- Position of the type of a value in the store's comparison order. -/
def Value.rank : Value → Nat
  | .null => 0
  | .num _ => 1
  | .str _ => 2
  | .doc _ => 3
  | .oid _ => 4
  | .bool _ => 5
  | .date _ => 6

/-- Binary order of strings: `a ≤ b` on their characters. -/
def charsLe : List Char → List Char → Bool
  | [], _ => true
  | _ :: _, [] => false
  | a :: as, b :: bs =>
    if a.toNat < b.toNat then true
    else if b.toNat < a.toNat then false
    else charsLe as bs

def charsLt (a b : List Char) : Bool :=
  !charsLe b a

/-- Order of objects: field by field, name before value, a shorter object first. -/
def fieldsLe : List (String × String) → List (String × String) → Bool
  | [], _ => true
  | _ :: _, [] => false
  | (k, v) :: as, (k', v') :: bs =>
    if charsLt k.data k'.data then true
    else if charsLt k'.data k.data then false
    else if charsLt v.data v'.data then true
    else if charsLt v'.data v.data then false
    else fieldsLe as bs

/-- The comparison `a ≤ b` used by `$sort`. -/
def Value.le (a b : Value) : Bool :=
  if a.rank < b.rank then true
  else if b.rank < a.rank then false
  else
    match a, b with
    | .num m, .num n => decide (m ≤ n)
    | .str x, .str y => charsLe x.data y.data
    | .doc x, .doc y => fieldsLe x y
    | .oid m, .oid n => decide (m ≤ n)
    | .bool x, .bool y => !x || y
    | .date m, .date n => decide (m ≤ n)
    | _, _ => true

/-- One way to carry out `$sort: { [field]: direction }` with the key of a row
read by `key`: ascending or descending, rows with equal keys in the order in
which they arrive. The store itself promises no order among rows with equal
keys (see `StoreSort.Sorts`); this is the order of the example store
`stableStore`. -/
def sortStage {α : Type} (key : α → Value) (ascending : Bool) (rows : List α) : List α :=
  if ascending then rows.insertionSort (fun a b => (key a).le (key b) = true)
  else rows.insertionSort (fun a b => (key b).le (key a) = true)

/-- The object `sort` after `const sort = {}` and `sort[sortBy] = direction`,
as the list of its own keys: the assignment of a number to `__proto__` adds no
own key, every other name becomes the single key of the object. -/
def sortObject (sortBy : String) (direction : Int) : List (String × Int) :=
  if sortBy = "__proto__" then [] else [(sortBy, direction)]

/-- The store's treatment of a `$sort` stage. `reject spec` is the message of
the error that the store raises for the specification `spec`, if it raises one;
`order α field spec rows` are the rows as the stage passes them on, where
`field path row` is the value of the field path in the row. -/
structure StoreSort where
  reject : List (String × Int) → Option String
  order : (α : Type) → (String → α → Value) → List (String × Int) → List α → List α

/-- What the store promises of a `$sort` with the single key `path`: the stage
passes on the same rows, ordered by the key, ascending for the direction `1` and
descending otherwise. Nothing is promised on the order of rows with equal keys. -/
def StoreSort.Sorts (sorter : StoreSort) : Prop :=
  ∀ (α : Type) (field : String → α → Value) (path : String) (direction : Int)
    (rows : List α),
    (sorter.order α field [(path, direction)] rows).Perm rows ∧
      (sorter.order α field [(path, direction)] rows).Pairwise
        (fun a b => if direction = 1 then (field path a).le (field path b) = true
          else (field path b).le (field path a) = true)

/-- The field paths that the example stores take as a sort key: not empty, no
empty component, no component that starts with `$`. -/
def fieldPathMessage (path : String) : Option String :=
  if path = "" then some "FieldPath cannot be constructed with empty string"
  else if [] ∈ splitChars '.' path.data then
    some "FieldPath field names may not be empty strings."
  else if (splitChars '.' path.data).any (fun part => part.head? == some '$') then
    some "FieldPath field names may not start with '$'."
  else none

/-- The verdict of the example stores on a `$sort` specification. -/
def exampleReject (spec : List (String × Int)) : Option String :=
  match spec with
  | [] => some "$sort stage must have at least one sort key"
  | _ => (spec.filterMap (fun p => fieldPathMessage p.1)).head?

/-- An example store: keys are compared one after the other, and rows that are
equal in every key stay in the order in which they arrive. -/
def stableStore : StoreSort :=
  { reject := exampleReject,
    order := fun _ field spec rows =>
      spec.foldr (fun p acc => sortStage (field p.1) (p.2 == 1) acc) rows }

/-- Another example store: as `stableStore`, but rows that are equal in every
key leave the stage in the opposite of the order in which they arrive. -/
def reversingStore : StoreSort :=
  { reject := exampleReject,
    order := fun _ field spec rows =>
      spec.foldr (fun p acc => sortStage (field p.1) (p.2 == 1) acc) rows.reverse }

/-- Page object of `aggregatePaginate`; the literal `{ docs: [], totalDocs: 0 }`
of the handlers has neither `limit` nor `page`. -/
structure Paginated (α : Type) where
  docs : List α
  totalDocs : Nat
  limit : Option Nat := none
  page : Option Nat := none
deriving DecidableEq, Repr

/-- Model of the `aggregatePaginate` plugin for `options = { page, limit }` with
`page ≥ 1`: the rows of the pipeline are counted, then `(page - 1) * limit` of
them are skipped and `limit` kept; a limit that is not positive is replaced by
the plugin's default 10. -/
def aggregatePaginate {α : Type} (rows : List α) (page limit : Int) : Paginated α :=
  let limit := if limit > 0 then limit else 10
  let skip := (page - 1) * limit
  { docs := (rows.drop skip.toNat).take limit.toNat,
    totalDocs := rows.length,
    limit := some limit.toNat,
    page := some page.toNat }

/-- White space removed by `String.prototype.trim`. -/
def isJsWhitespace (c : Char) : Bool :=
  let n := c.toNat
  n == 9 || n == 10 || n == 11 || n == 12 || n == 13 || n == 32 || n == 160 || n == 5760 ||
    (8192 ≤ n && n ≤ 8202) || n == 8232 || n == 8233 || n == 8239 || n == 8287 ||
    n == 12288 || n == 65279

/-- Characters of `s.trim()`. -/
def jsTrim (s : List Char) : List Char :=
  ((s.dropWhile isJsWhitespace).reverse.dropWhile isJsWhitespace).reverse

/-- Value of `s.length`: the number of UTF-16 code units. -/
def jsLength (s : String) : Nat :=
  (s.data.map (fun c => if c.toNat < 65536 then 1 else 2)).sum

/-! ## Listings -/

/-- The keys of `req.query` read by `getAllVideos` and `getChannelVideos`. -/
structure ListQuery where
  page : Option Int := none
  limit : Option Int := none
  query : Option String := none
  sortBy : Option String := none
  sortType : Option String := none
  userId : Option String := none
  channelId : Option String := none
deriving DecidableEq, Repr

/-- Owner of a video as joined and projected by `getAllVideos`. -/
structure OwnerDetails where
  username : String
  fullname : String
  avatar : String
deriving DecidableEq, Repr

/-- Row of `getAllVideos` and `getChannelVideos` after `$project`; the second
pipeline projects neither `isPublished` nor `ownerDetails`. -/
structure VideoRow where
  _id : ObjectId
  title : String
  description : String
  videoFile : String
  thumbnail : String
  isPublished : Option Bool
  views : Nat
  duration : Nat
  createdAt : Nat
  ownerDetails : Option OwnerDetails
deriving DecidableEq, Repr

/-- Value of the field path `path` in a projected row; a path that names no
field of the row reads as `null`. -/
def VideoRow.field (path : String) (r : VideoRow) : Value :=
  if path = "_id" then .oid r._id
  else if path = "title" then .str r.title
  else if path = "description" then .str r.description
  else if path = "videoFile" then .str r.videoFile
  else if path = "thumbnail" then .str r.thumbnail
  else if path = "isPublished" then (r.isPublished.map Value.bool).getD .null
  else if path = "views" then .num r.views
  else if path = "duration" then .num r.duration
  else if path = "createdAt" then .date r.createdAt
  else if path = "ownerDetails" then
    (r.ownerDetails.map (fun o =>
      Value.doc [("username", o.username), ("fullname", o.fullname), ("avatar", o.avatar)])).getD
      .null
  else if path = "ownerDetails.username" then
    (r.ownerDetails.map (fun o => Value.str o.username)).getD .null
  else if path = "ownerDetails.fullname" then
    (r.ownerDetails.map (fun o => Value.str o.fullname)).getD .null
  else if path = "ownerDetails.avatar" then
    (r.ownerDetails.map (fun o => Value.str o.avatar)).getD .null
  else .null

/-- Row of `getVideoLikes`: `.select("likedBy createdAt")` with the liker populated. -/
structure LikeRow where
  _id : ObjectId
  likedBy : Option UserSummary
  createdAt : Nat
deriving DecidableEq, Repr

/-- Payload of `getVideoLikes`: `[]` or `{ likedVideos, totalLikes }`. -/
inductive LikesData where
  | empty
  | page (likedVideos : List LikeRow) (totalLikes : Nat)
deriving DecidableEq, Repr

/-- Video of a playlist as joined and projected by `getUserPlaylist`. -/
structure VideoSummary where
  _id : ObjectId
  title : String
  videoFile : String
  thumbnail : String
deriving DecidableEq, Repr

/-- Row of `getUserPlaylist` after `$project`. -/
structure PlaylistRow where
  _id : ObjectId
  name : String
  description : String
  owner : Option UserSummary
  videoDetails : List VideoSummary
deriving DecidableEq, Repr

/-- Payload `{ playlists, total }` of `getUserPlaylist`. -/
structure PlaylistsData where
  playlists : List PlaylistRow
  total : Nat
deriving DecidableEq, Repr

section Listings

variable (castObjectId : String → Option ObjectId)

-- `regexTest pattern subject`: the store's `$regex` test with `$options: "i"`.
variable (regexTest : String → String → Bool)

-- The store's `$sort` stage.
variable (sorter : StoreSort)

/-- The likes of a video under `.sort({ createdAt: -1 })`. -/
def likesNewestFirst (s : Store) (vid : ObjectId) : List Like :=
  (s.likes.filter (fun l => l.video == some vid)).insertionSort
    (fun a b => b.createdAt ≤ a.createdAt)

def getVideoLikes (videoId : String) (page limit : Option Int) (s : Store) :
    Handler LikesData :=
  let page := page.getD 1
  let limit := limit.getD 20
  if page < 1 then (.error (.apiError 400 "Page must be 1 or higher"), s)
  else if limit < 1 then (.error (.apiError 400 "Limit must be 1 or higher"), s)
  else
    match castObjectId videoId with
    | none => (.error (.apiError 400 "Invalid video's id"), s)
    | some vid =>
      let skip := (page - 1) * limit
      let likes := cursorLimit limit (cursorSkip skip (likesNewestFirst s vid))
      let likedVideos :=
        likes.map (fun l => (⟨l._id, populateUser s l.likedBy, l.createdAt⟩ : LikeRow))
      let totalLikes := (s.likes.filter (fun l => l.video == some vid)).length
      if likedVideos.length < 1 then (.ok ⟨200, 200, .empty, "There is no likes of the video"⟩, s)
      else
        (.ok ⟨200, 200, .page likedVideos totalLikes,
          "All likes of the video fetched Successfully"⟩, s)

/-- Stages `$lookup` of the owner, `$addFields` of its first element and
`$project` of `getAllVideos`, on one video. -/
def allVideosRow (s : Store) (v : Video) : VideoRow :=
  { _id := v._id, title := v.title, description := v.description, videoFile := v.videoFile,
    thumbnail := v.thumbnail, isPublished := some v.isPublished, views := v.views,
    duration := v.duration, createdAt := v.createdAt,
    ownerDetails := (s.users.find? (fun u => u._id == v.owner)).map
      (fun u => ⟨u.username, u.fullname, u.avatar⟩) }

/-- The `$match` stage of `getAllVideos`: published, of the owner when one is
given, and with the query found in the title or the description when one is given. -/
def allVideosMatch (owner : Option ObjectId) (query : Option String) (v : Video) : Bool :=
  v.isPublished &&
    (match owner with
      | none => true
      | some o => v.owner == o) &&
    (if truthy query then
      regexTest (query.getD "") v.title || regexTest (query.getD "") v.description
    else true)

def getAllVideos (q : ListQuery) (s : Store) : Handler (Paginated VideoRow) :=
  let page := q.page.getD 1
  let limit := q.limit.getD 10
  if page < 1 then (.error (.apiError 400 "Page must be 1 or higher"), s)
  else if limit < 1 then (.error (.apiError 400 "Limit must be 1 or higher"), s)
  else
    let withOwner := truthy q.userId && (jsTrim (q.userId.getD "").data).length > 0
    if withOwner && !isValidObjectId castObjectId (q.userId.getD "") then
      (.error (.apiError 400 "Invalid userId format"), s)
    else if withOwner && (castObjectId (String.mk (jsTrim (q.userId.getD "").data))).isNone then
      (.error .castError, s)
    else
      let owner :=
        if withOwner then castObjectId (String.mk (jsTrim (q.userId.getD "").data)) else none
      if truthy q.query && jsLength (q.query.getD "") > 50 then
        (.error (.apiError 400 "Query too long"), s)
      else if q.sortType ≠ some "asc" && q.sortType ≠ some "desc" then
        (.error (.apiError 400 "SortType must be asc or desc"), s)
      else
        let sort := sortObject (q.sortBy.getD "undefined")
          (if q.sortType = some "asc" then 1 else -1)
        match sorter.reject sort with
        | some message => (.error (.storeError message), s)
        | none =>
          let rows := sorter.order VideoRow VideoRow.field sort
            ((s.videos.filter (allVideosMatch regexTest owner q.query)).map (allVideosRow s))
          let allVideos := aggregatePaginate rows page limit
          if allVideos.docs.length = 0 then
            (.ok ⟨200, 200, { docs := [], totalDocs := 0 }, "No videos found!"⟩, s)
          else (.ok ⟨200, 200, allVideos, "Fetched all videos Successfully!"⟩, s)

/-- Stage `$project` of `getChannelVideos`, on one video. -/
def channelVideosRow (v : Video) : VideoRow :=
  { _id := v._id, title := v.title, description := v.description, videoFile := v.videoFile,
    thumbnail := v.thumbnail, isPublished := none, views := v.views,
    duration := v.duration, createdAt := v.createdAt, ownerDetails := none }

def getChannelVideos (q : ListQuery) (s : Store) : Handler (Paginated VideoRow) :=
  let page := q.page.getD 1
  let limit := q.limit.getD 10
  if page < 1 then (.error (.apiError 400 "Page must be 1 or higher"), s)
  else
    match q.channelId.bind castObjectId with
    | none => (.error (.apiError 400 "Invalid channel's id"), s)
    | some channel =>
      let sort := sortObject (q.sortBy.getD "undefined") 1
      match sorter.reject sort with
      | some message => (.error (.storeError message), s)
      | none =>
        let rows := sorter.order VideoRow VideoRow.field sort
          ((s.videos.filter (fun v => v.isPublished && v.owner == channel)).map
            channelVideosRow)
        let channelVideos := aggregatePaginate rows page limit
        if channelVideos.docs.length = 0 then
          (.ok ⟨200, 200, { docs := [], totalDocs := 0 }, "No video found"⟩, s)
        else (.ok ⟨200, 200, channelVideos, "Fetched all channel's videos SuccessFully"⟩, s)

/-- The pipeline of `getUserPlaylist` on one playlist: the owner is joined and
reduced to its first element, the videos of the list are joined, and the row is
projected. -/
def userPlaylistRow (s : Store) (p : Playlist) : PlaylistRow :=
  { _id := p._id, name := p.name, description := p.description,
    owner := populateUser s p.owner,
    videoDetails := (s.videos.filter (fun v => decide (v._id ∈ p.videos))).map
      (fun v => ⟨v._id, v.title, v.videoFile, v.thumbnail⟩) }

def getUserPlaylist (userId : String) (s : Store) : Handler PlaylistsData :=
  match castObjectId userId with
  | none => (.error (.apiError 400 "Invalid user's id"), s)
  | some objectUserId =>
    let playlists :=
      (s.playlists.filter (fun p => p.owner == objectUserId)).map (userPlaylistRow s)
    let total := (s.playlists.filter (fun p => p.owner == objectUserId)).length
    if total = 0 then (.error (.apiError 400 "No playlist exist"), s)
    else if playlists.length < 1 then (.error (.apiError 404 "Playlist not found"), s)
    else
      (.ok ⟨200, 200, ⟨playlists, total⟩,
        "All playlists of the user fetched Successfully"⟩, s)

end Listings

/-! ## user.controller.js -/

/-- Value of the field `name` of a subscription document, `none` when the
document has no such field. -/
def Subscription.field (name : String) (x : Subscription) : Option Value :=
  if name = "_id" then some (.oid x._id)
  else if name = "subscriber" then some (.oid x.subscriber)
  else if name = "channel" then some (.oid x.channel)
  else if name = "createdAt" then some (.date x.createdAt)
  else none

/-- Stage `$lookup` from the subscriptions: the documents whose `foreignField`
equals the local value, a missing field counting as `null`. -/
def lookupSubscriptions (s : Store) (localValue : Value) (foreignField : String) :
    List Subscription :=
  s.subscriptions.filter (fun x => (x.field foreignField).getD .null == localValue)

/-- Row of `getUserChannelProfile` after `$project`. -/
structure ProfileRow where
  _id : ObjectId
  username : String
  fullname : String
  email : String
  subscriberCount : Nat
  subscribedToCount : Nat
  isSubscribed : Bool
  avatar : String
  coverImage : String
deriving DecidableEq, Repr

/-- The pipeline of `getUserChannelProfile` on one user. -/
def channelProfileRow (ctx : Ctx) (s : Store) (u : User) : ProfileRow :=
  let subscribers := lookupSubscriptions s (.oid u._id) "channel"
  let subscribedTo := lookupSubscriptions s (.oid u._id) "subscribers"
  { _id := u._id, username := u.username, fullname := u.fullname, email := u.email,
    subscriberCount := subscribers.length,
    subscribedToCount := subscribedTo.length,
    isSubscribed :=
      decide (Value.oid ctx.user ∈ subscribers.filterMap (Subscription.field "subscribed")),
    avatar := u.avatar, coverImage := u.coverImage }

def getUserChannelProfile (ctx : Ctx) (username : Option String) (s : Store) :
    Handler (Option ProfileRow) :=
  if !truthy username then (.error (.apiError 400 "Username is missing!"), s)
  else
    let profile :=
      (s.users.filter (fun u => u.username == username.getD "")).map (channelProfileRow ctx s)
    match profile with
    | [] => (.error (.apiError 404 "Profile not found!"), s)
    | first :: _ => (.ok ⟨200, 200, some first, "Profile fetched successfully!"⟩, s)

/-- User document as sent in a reply; a field left out by `.select` is `none`. -/
structure UserDoc where
  _id : ObjectId
  username : String
  email : String
  fullname : String
  avatar : String
  coverImage : String
  password : Option String
  refreshToken : Option String
  watchHistory : List ObjectId
deriving DecidableEq, Repr

/-- The stored document with every field selected. -/
def User.toDoc (u : User) : UserDoc :=
  { _id := u._id, username := u.username, email := u.email, fullname := u.fullname,
    avatar := u.avatar, coverImage := u.coverImage, password := some u.password,
    refreshToken := u.refreshToken, watchHistory := u.watchHistory }

/-- Projection `.select("-password")`. -/
def selectWithoutPassword (d : UserDoc) : UserDoc :=
  { d with password := none }

/-- The document `req.user` loaded by `verifyJWT`: the stored user of the request. -/
def reqUser (ctx : Ctx) (s : Store) : Option User :=
  s.users.find? (fun u => u._id == ctx.user)

def updateUserDetails (ctx : Ctx) (fullname email : Option String) (s : Store) :
    Handler (Option UserDoc) :=
  if !(truthy fullname && truthy email) then
    (.error (.apiError 400 "Both fullname and email is required!"), s)
  else
    let set : User → User := fun u =>
      { u with fullname := fullname.getD "", email := email.getD "" }
    let s1 := { s with users := updateOne (fun u => u._id == ctx.user) set s.users }
    let user := (s1.users.find? (fun u => u._id == ctx.user)).map
      (fun u => selectWithoutPassword u.toDoc)
    (.ok ⟨200, 200, user, "User details is updated Successfully"⟩, s1)

def updateUserAvatar (ctx : Ctx) (filePath : Option String) (s : Store) :
    Handler (Option UserDoc) :=
  if !truthy filePath then (.error (.apiError 400 "Avatar file is missing!"), s)
  else
    let deleteAvatarPath := (reqUser ctx s).map (fun u => u.avatar)
    if !truthy deleteAvatarPath then
      (.error (.apiError 500 "Unable to delete the previous Image!"), s)
    else
      let s1 := (deleteFromCloudinary ctx deleteAvatarPath s).2
      match uploadOnCloudinary ctx filePath s1 with
      | (.error e, s2) => (.error e, s2)
      | (.ok .null, s2) => (.error (.typeError "Cannot read properties of null (reading 'url')"), s2)
      | (.ok .error, s2) => (.error (.apiError 400 "Error while uploading avatar!"), s2)
      | (.ok (.response url), s2) =>
        if url = "" then (.error (.apiError 400 "Error while uploading avatar!"), s2)
        else
          let set : User → User := fun u => { u with avatar := url }
          let s3 := { s2 with users := updateOne (fun u => u._id == ctx.user) set s2.users }
          let user := (s3.users.find? (fun u => u._id == ctx.user)).map
            (fun u => selectWithoutPassword u.toDoc)
          (.ok ⟨200, 200, user, "Avatar is updated Successfully"⟩, s3)

def updateUserCoverImage (ctx : Ctx) (filePath : Option String) (s : Store) :
    Handler (Option UserDoc) :=
  if !truthy filePath then (.error (.apiError 400 "CoverImage is missing!"), s)
  else
    let deleteCoverImagePath := (reqUser ctx s).map (fun u => u.coverImage)
    let s1 :=
      if truthy deleteCoverImagePath then (deleteFromCloudinary ctx deleteCoverImagePath s).2
      else s
    match uploadOnCloudinary ctx filePath s1 with
    | (.error e, s2) => (.error e, s2)
    | (.ok .null, s2) => (.error (.typeError "Cannot read properties of null (reading 'url')"), s2)
    | (.ok .error, s2) => (.error (.apiError 400 "Error while uploading CoverImage!"), s2)
    | (.ok (.response url), s2) =>
      if url = "" then (.error (.apiError 400 "Error while uploading CoverImage!"), s2)
      else
        let set : User → User := fun u => { u with coverImage := url }
        let s3 := { s2 with users := updateOne (fun u => u._id == ctx.user) set s2.users }
        let user := (s3.users.find? (fun u => u._id == ctx.user)).map (fun u => u.toDoc)
        (.ok ⟨200, 200, user, "CoverImage is updated Successfully"⟩, s3)

/-! ## Example data for the listings and the accounts -/

def lowerAscii (c : Char) : Char :=
  if 65 ≤ c.toNat ∧ c.toNat ≤ 90 then Char.ofNat (c.toNat + 32) else c

/-- The case-insensitive search for a pattern without metacharacters: the
pattern occurs in the subject, letter case aside. -/
def containsIgnoreCase (pattern subject : String) : Bool :=
  includesChars (pattern.data.map lowerAscii) (subject.data.map lowerAscii)

/-- Five published videos of user 1; "cat" occurs in the title of video 30 and
in the description of video 32. -/
def catStore : Store :=
  { users := [{ _id := 1, username := "ada" }],
    videos := [
      { _id := 30, title := "Cat naps", description := "sleepy", videoFile := "a",
        thumbnail := "a", views := 7, owner := 1 },
      { _id := 31, title := "dogs", description := "barking", videoFile := "b",
        thumbnail := "b", views := 9, owner := 1 },
      { _id := 32, title := "birds", description := "a CAT watches", videoFile := "c",
        thumbnail := "c", views := 12, owner := 1 },
      { _id := 33, title := "fish", description := "swimming", videoFile := "d",
        thumbnail := "d", views := 1, owner := 1 },
      { _id := 34, title := "cows", description := "grazing", videoFile := "e",
        thumbnail := "e", views := 3, owner := 1 }],
    nextId := 40 }

/-- The example store in which user 2 is subscribed to the channel of user 1. -/
def subscribedStore : Store :=
  { demoStore with subscriptions := [⟨8, 2, 1, 0⟩] }

/-- A store with one account that holds a password hash and a refresh token, and
an uploaded file waiting at `/tmp/cover.png`. -/
def accountStore : Store :=
  { users := [{ _id := 1, username := "ada", email := "ada@example.com", fullname := "Ada",
                avatar := "http://res.cloudinary.com/demo/image/upload/v1/face.png",
                password := "$2b$10$hash", refreshToken := some "refresh-token" }],
    localFiles := ["/tmp/cover.png"],
    nextId := 20 }

/-- A request of user 1 whose upload is answered with the url of the new image. -/
def uploadingCtx : Ctx :=
  { user := 1,
    upload := fun _ => some "http://res.cloudinary.com/demo/image/upload/v1/cover.png" }

/-- The parameters of `getAllVideos` other than the sort direction are valid:
page and limit are at least 1, the user id, when one is given, is well-formed,
and the query has at most 50 characters. -/
def OtherParamsValid (castObjectId : String → Option ObjectId) (q : ListQuery) : Prop :=
  1 ≤ q.page.getD 1 ∧ 1 ≤ q.limit.getD 10 ∧
    ((truthy q.userId && (jsTrim (q.userId.getD "").data).length > 0) = true →
      (castObjectId (q.userId.getD "")).isSome = true ∧
        (castObjectId (String.mk (jsTrim (q.userId.getD "").data))).isSome = true) ∧
    ¬ (truthy q.query = true ∧ jsLength (q.query.getD "") > 50)

/-- A listing request without a sort direction. -/
def undirectedQuery : ListQuery :=
  { page := some 1, limit := some 2, query := some "cat", sortBy := some "views",
    channelId := some id1 }

/-! ## The public id of a url, in the words of the specification -/

/-- The segment after the last separator: when a separator occurs further on,
the segment lies there; otherwise it is what follows the first character, if that
is the separator, and the whole string if not. -/
def afterLast (sep : Char) : List Char → List Char
  | [] => []
  | c :: cs => if sep ∈ cs then afterLast sep cs else if c = sep then cs else c :: cs

/-- The part of a string that precedes the first separator. -/
def beforeFirst (sep : Char) (l : List Char) : List Char :=
  l.takeWhile (fun c => c != sep)

/-- The part of the last `/`-separated segment of the url that precedes its first `.`. -/
def specPublicId (url : String) : String :=
  String.mk (beforeFirst '.' (afterLast '/' url.data))

/-- The resource type: `video` when the url contains `/video/`, `image` otherwise. -/
def specResourceType (url : String) : String :=
  if "/video/".data <:+: url.data then "video" else "image"

/-! ## The pipelines as written -/

/-- One stage of an aggregation pipeline, with the fields it names. -/
inductive Stage where
  | matching (fields : List String)
  | lookup (collection localField foreignField name : String)
  | addFields (fields : List String)
  | project (fields : List String)
  | sort (spec : List (String × Int))
deriving DecidableEq, Repr

inductive StageKind where
  | matching
  | lookup
  | addFields
  | project
  | sort
deriving DecidableEq, Repr

def Stage.kind : Stage → StageKind
  | .matching _ => .matching
  | .lookup _ _ _ _ => .lookup
  | .addFields _ => .addFields
  | .project _ => .project
  | .sort _ => .sort

/-- Place of a kind in the order match, lookup, addFields, project, sort. -/
def StageKind.rank : StageKind → Nat
  | .matching => 0
  | .lookup => 1
  | .addFields => 2
  | .project => 3
  | .sort => 4

/-- No stage of an earlier kind follows a stage of a later kind. -/
def InFixedOrder (pipeline : List Stage) : Prop :=
  (pipeline.map (fun st => st.kind.rank)).Pairwise (fun a b => a ≤ b)

instance (pipeline : List Stage) : Decidable (InFixedOrder pipeline) := by
  unfold InFixedOrder; infer_instance

/-- No `$addFields` stage follows a `$sort` stage. -/
def SortAfterAddFields (pipeline : List Stage) : Prop :=
  (pipeline.map Stage.kind).Pairwise (fun a b => ¬ (a = .sort ∧ b = .addFields))

instance (pipeline : List Stage) : Decidable (SortAfterAddFields pipeline) := by
  unfold SortAfterAddFields; infer_instance

/-- The `$project` stage comes after every `$lookup` and `$addFields` stage. -/
def ProjectAfterJoins (pipeline : List Stage) : Prop :=
  (pipeline.map Stage.kind).Pairwise
    (fun a b => ¬ (a = .project ∧ (b = .lookup ∨ b = .addFields)))

instance (pipeline : List Stage) : Decidable (ProjectAfterJoins pipeline) := by
  unfold ProjectAfterJoins; infer_instance

/-- The sort specifications of a pipeline. -/
def sortSpecs (pipeline : List Stage) : List (List (String × Int)) :=
  pipeline.filterMap (fun st =>
    match st with
    | .sort spec => some spec
    | _ => none)

/-- The array passed to `Video.aggregate` by `getAllVideos`. -/
def getAllVideosPipeline (q : ListQuery) : List Stage :=
  [ .matching (["isPublished"] ++
      (if truthy q.userId && (jsTrim (q.userId.getD "").data).length > 0 then ["owner"] else []) ++
      (if truthy q.query then ["$or"] else [])),
    .lookup "users" "owner" "_id" "ownerDetails",
    .addFields ["ownerDetails"],
    .project ["title", "description", "videoFile", "thumbnail", "isPublished", "views",
      "duration", "createdAt", "ownerDetails.username", "ownerDetails.fullname",
      "ownerDetails.avatar"],
    .sort (sortObject (q.sortBy.getD "undefined") (if q.sortType = some "asc" then 1 else -1)) ]

/-- The array passed to `Video.aggregate` by `getChannelVideos`. -/
def getChannelVideosPipeline (q : ListQuery) : List Stage :=
  [ .matching ["isPublished", "owner"],
    .project ["title", "description", "videoFile", "thumbnail", "views", "duration",
      "createdAt"],
    .sort (sortObject (q.sortBy.getD "undefined") 1) ]

/-- The array passed to `Comment.aggregate` by `getVideoComments`. -/
def getVideoCommentsPipeline : List Stage :=
  [ .matching ["video"],
    .lookup "users" "owner" "_id" "owner",
    .sort [("createdAt", -1)],
    .addFields ["owner"],
    .project ["content", "owner._id", "owner.username", "owner.avatar"] ]

/-- The array passed to `Playlist.aggregate` by `getUserPlaylist`. -/
def getUserPlaylistPipeline : List Stage :=
  [ .matching ["owner"],
    .lookup "users" "owner" "_id" "owner",
    .addFields ["owner"],
    .lookup "videos" "videos" "_id" "videoDetails",
    .project ["name", "description", "owner._id", "owner.username", "owner.avatar",
      "videoDetails._id", "videoDetails.title", "videoDetails.videoFile",
      "videoDetails.thumbnail"] ]

/-- The array passed to `Playlist.aggregate` by `getPlaylistById`. -/
def getPlaylistByIdPipeline : List Stage :=
  [ .matching ["_id"],
    .lookup "users" "owner" "_id" "owner",
    .addFields ["owner"],
    .lookup "videos" "videos" "_id" "videoDetails",
    .project ["_id", "name", "description", "owner._id", "owner.username", "owner.avatar",
      "owner.fullname", "videoDetails._id", "videoDetails.title", "videoDetails.description",
      "videoDetails.videoFile", "videoDetails.thumbnail", "videoDetails.views",
      "videoDetails.duration", "videoDetails.createdAt"] ]

/-- The array passed to `User.aggregate` by `getUserChannelProfile`. -/
def getUserChannelProfilePipeline : List Stage :=
  [ .matching ["username"],
    .lookup "subscriptions" "_id" "channel" "subscribers",
    .lookup "subscriptions" "_id" "subscribers" "subscribedTo",
    .addFields ["subscriberCount", "subscribedToCount", "isSubscribed"],
    .project ["username", "fullname", "email", "subscriberCount", "subscribedToCount",
      "isSubscribed", "avatar", "coverImage"] ]

/-! ## comment.controller.js: the comments of a video -/

/-- Row of `getVideoComments` after `$project`: the content and the owner's
`_id`, `username` and `avatar`; the owner is absent when the join finds no user. -/
structure CommentRow where
  _id : ObjectId
  content : String
  owner : Option UserSummary
deriving DecidableEq, Repr

/-- Value of the field path `path` in a comment at the `$sort` stage of
`getVideoComments`, whose only key is `createdAt`: the fields `_id`, `content`,
`video` and `createdAt` are read, any other path reads as `null`. -/
def Comment.field (path : String) (c : Comment) : Value :=
  if path = "_id" then .oid c._id
  else if path = "content" then .str c.content
  else if path = "video" then .oid c.video
  else if path = "createdAt" then .date c.createdAt
  else .null

section CommentListing

variable (castObjectId : String → Option ObjectId)

-- The store's `$sort` stage.
variable (sorter : StoreSort)

/-- The pipeline of `getVideoComments`: the comments of the video, sorted by
`{ createdAt: -1 }`, each with the first joined owner, projected. -/
def videoCommentRows (s : Store) (vid : ObjectId) : List CommentRow :=
  (sorter.order Comment Comment.field [("createdAt", -1)]
    (s.comments.filter (fun c => c.video == vid))).map
    (fun c => ⟨c._id, c.content, populateUser s c.owner⟩)

def getVideoComments (videoId : String) (page limit : Option Int) (s : Store) :
    Handler (Paginated CommentRow) :=
  let page := page.getD 1
  let limit := limit.getD 10
  if !isValidObjectId castObjectId videoId then
    (.error (.apiError 400 "Invalid video's id"), s)
  else if page < 1 then (.error (.apiError 400 "Page must be 1 or higher"), s)
  else if limit < 1 then (.error (.apiError 400 "Limit must be 1 or higher"), s)
  else
    match (castObjectId videoId).bind (fun id => s.videos.find? (fun v => v._id == id)) with
    | none => (.error (.apiError 404 "Video not found"), s)
    | some video =>
      match sorter.reject [("createdAt", -1)] with
      | some message => (.error (.storeError message), s)
      | none =>
        (.ok ⟨200, 200, aggregatePaginate (videoCommentRows sorter s video._id) page limit,
          "Comments fetched Successfully"⟩, s)

end CommentListing

/-! ## Order of sort keys -/

/-- Lexicographic comparison of lists from a strict comparison of their
elements; `charsLe` and `fieldsLe` are instances of it. -/
def lexLe {α : Type} (lt : α → α → Bool) : List α → List α → Bool
  | [], _ => true
  | _ :: _, [] => false
  | a :: as, b :: bs => if lt a b then true else if lt b a then false else lexLe lt as bs

/-- A strict total order given as a test. -/
structure StrictTotal {α : Type} (lt : α → α → Bool) : Prop where
  irrefl : ∀ a, lt a a = false
  trans : ∀ a b c, lt a b = true → lt b c = true → lt a c = true
  tri : ∀ a b, lt a b = false → lt b a = false → a = b

/-- Comparison of two characters by code point, as in `charsLe`. -/
def charLt (c d : Char) : Bool := decide (c.toNat < d.toNat)

/-- Comparison of two fields of an object, as in `fieldsLe`: name, then value. -/
def fieldLt (p q : String × String) : Bool :=
  charsLt p.1.data q.1.data || (!charsLt q.1.data p.1.data && charsLt p.2.data q.2.data)

/-- Three published videos of user 1 with the same number of views, and three
comments on video 5 written at the same instant. -/
def tieStore : Store :=
  { users := [{ _id := 1, username := "ada" }],
    videos := [
      { _id := 5, title := "cats", description := "a", videoFile := "a", thumbnail := "a",
        views := 5, owner := 1, createdAt := 200 },
      { _id := 6, title := "dogs", description := "b", videoFile := "b", thumbnail := "b",
        views := 5, owner := 1, createdAt := 100 },
      { _id := 7, title := "birds", description := "c", videoFile := "c", thumbnail := "c",
        views := 5, owner := 1, createdAt := 300 }],
    comments := [
      { _id := 52, content := "second", video := 5, owner := 1, createdAt := 7 },
      { _id := 50, content := "first", video := 5, owner := 1, createdAt := 7 },
      { _id := 51, content := "third", video := 5, owner := 1, createdAt := 7 }],
    nextId := 60 }

/-- No two rows have the same sort key. -/
def NoTies {α : Type} (key : α → Value) (rows : List α) : Prop :=
  rows.Pairwise (fun a b => key a ≠ key b)

instance {α : Type} (key : α → Value) (rows : List α) : Decidable (NoTies key rows) := by
  unfold NoTies; infer_instance

/-! ## Lemmas on collections -/

theorem find?_eq_some_of_countP_le_one {α : Type} (p : α → Bool) :
    ∀ (l : List α) (d : α), l.countP p ≤ 1 → d ∈ l → p d = true → l.find? p = some d
  | [], _, _, hd, _ => by cases hd
  | a :: l, d, hc, hd, hp => by
    by_cases ha : p a = true
    · rw [List.find?_cons_of_pos _ ha]
      rcases List.mem_cons.1 hd with h | h
      · rw [h]
      · exfalso
        rw [List.countP_cons_of_pos _ _ ha] at hc
        have h0 : l.countP p = 0 := by omega
        exact (List.countP_eq_zero.1 h0) d h hp
    · rw [List.find?_cons_of_neg _ ha]
      rcases List.mem_cons.1 hd with h | h
      · exact absurd (h ▸ hp) ha
      · rw [List.countP_cons_of_neg _ _ ha] at hc
        exact find?_eq_some_of_countP_le_one p l d hc h hp

theorem eraseP_key_eq_erase {α : Type} [DecidableEq α] (key : α → ObjectId) :
    ∀ (l : List α) (d : α), (l.map key).Nodup → d ∈ l →
      l.eraseP (fun x => key x == key d) = l.erase d
  | [], _, _, hd => by cases hd
  | a :: l, d, hn, hd => by
    rw [List.map_cons, List.nodup_cons] at hn
    by_cases had : a = d
    · subst had
      simp
    · have hdl : d ∈ l := by
        rcases List.mem_cons.1 hd with h | h
        · exact absurd h.symm had
        · exact h
      have hk : key a ≠ key d := by
        intro h
        exact hn.1 (h ▸ List.mem_map_of_mem key hdl)
      rw [List.eraseP_cons_of_neg (by simpa using hk), List.erase_cons_tail (by simpa using had),
        eraseP_key_eq_erase key l d hn.2 hdl]

theorem find?_id_isSome {α : Type} (key : α → ObjectId) (l : List α) (i : ObjectId)
    (h : ∃ d ∈ l, key d = i) : ∃ d, l.find? (fun x => key x == i) = some d := by
  obtain ⟨d, hd, hk⟩ := h
  cases hf : l.find? (fun x => key x == i) with
  | some e => exact ⟨e, rfl⟩
  | none =>
    exfalso
    have := List.find?_eq_none.1 hf d hd
    simp [hk] at this

theorem find?_append_new {α : Type} (p : α → Bool) (docs : List α) (d : α)
    (hnone : docs.find? p = none) (hp : p d = true) : (docs ++ [d]).find? p = some d := by
  simp [List.find?_append, hnone, hp]

theorem eraseP_append_new {α : Type} (key : α → ObjectId) (docs : List α) (next : ObjectId)
    (hlt : ∀ d ∈ docs, key d < next) (d : α) (hk : key d = next) :
    (docs ++ [d]).eraseP (fun x => key x == key d) = docs := by
  rw [List.eraseP_append_right]
  · simp
  · intro b hb
    have hb' := hlt b hb
    intro h
    have hkb : key b = next := by rw [← hk]; exact of_decide_eq_true (by simpa using h)
    exact absurd hkb (Nat.ne_of_lt hb')

theorem find?_erase_eq_none {α : Type} [DecidableEq α] (p : α → Bool) (docs : List α) (d : α)
    (hone : docs.countP p ≤ 1) (hd : d ∈ docs) (hp : p d = true) :
    (docs.erase d).find? p = none := by
  have hperm := (List.perm_cons_erase hd).countP_eq p
  rw [List.countP_cons_of_pos _ _ hp] at hperm
  have h0 : (docs.erase d).countP p = 0 := by omega
  exact List.find?_eq_none.2 (fun x hx => by simpa using (List.countP_eq_zero.1 h0) x hx)

theorem filterMap_swap_perm {α β : Type} [DecidableEq α] (f : α → Option β) (docs : List α)
    (d e : α) (hd : d ∈ docs) (hf : f e = f d) :
    ((docs.erase d ++ [e]).filterMap f).Perm (docs.filterMap f) := by
  have h1 : ((docs.erase d ++ [e]).filterMap f).Perm ((e :: docs.erase d).filterMap f) :=
    List.Perm.filterMap f List.perm_append_comm
  have h2 : (e :: docs.erase d).filterMap f = (d :: docs.erase d).filterMap f := by
    simp [List.filterMap_cons, hf]
  have h3 : ((d :: docs.erase d).filterMap f).Perm (docs.filterMap f) :=
    List.Perm.filterMap f (List.perm_cons_erase hd).symm
  exact h1.trans (h2 ▸ h3)

theorem map_swap_perm {α β : Type} [DecidableEq α] (g : α → β) (docs : List α)
    (d e : α) (hd : d ∈ docs) (hg : g e = g d) :
    ((docs.erase d ++ [e]).map g).Perm (docs.map g) := by
  have h1 : ((docs.erase d ++ [e]).map g).Perm ((e :: docs.erase d).map g) :=
    List.Perm.map g List.perm_append_comm
  have h2 : (e :: docs.erase d).map g = (d :: docs.erase d).map g := by
    simp [hg]
  have h3 : ((d :: docs.erase d).map g).Perm (docs.map g) :=
    List.Perm.map g (List.perm_cons_erase hd).symm
  exact h1.trans (h2 ▸ h3)

theorem mem_existingVideos (castObjectId : String → Option ObjectId) (s : Store)
    (supplied : List String) (v : ObjectId) :
    v ∈ ((s.videos.filter (fun x =>
          (supplied.filter (fun id => isValidObjectId castObjectId id)).any
            (fun id => castObjectId id == some x._id))).map (fun x => x._id)).dedup ↔
      Qualifies castObjectId s supplied v := by
  simp only [List.mem_dedup, List.mem_map, List.mem_filter, List.any_eq_true, beq_iff_eq,
    isValidObjectId, Qualifies]
  constructor
  · rintro ⟨x, ⟨hx, raw, ⟨hraw, _⟩, hc⟩, rfl⟩
    exact ⟨⟨raw, hraw, hc⟩, x, hx, rfl⟩
  · rintro ⟨⟨raw, hraw, hc⟩, x, hx, rfl⟩
    exact ⟨x, ⟨hx, raw, ⟨hraw, by simp [hc]⟩, hc⟩, rfl⟩

theorem length_lt_one_iff {α : Type} (l : List α) : l.length < 1 ↔ ∀ a, a ∉ l := by
  cases l with
  | nil => simp
  | cons a l =>
    simp only [List.length_cons, Nat.lt_one_iff, Nat.succ_ne_zero, false_iff, not_forall,
      not_not]
    exact ⟨a, List.mem_cons_self a l⟩

theorem forall_mem_updateOne {α : Type} (P : α → Prop) (q : α → Bool) (f : α → α)
    (hf : ∀ d, P d → P (f d)) :
    ∀ l : List α, (∀ d ∈ l, P d) → ∀ d ∈ updateOne q f l, P d
  | [], _, d, hd => by cases hd
  | a :: l, h, d, hd => by
    unfold updateOne at hd
    split at hd
    · rcases List.mem_cons.1 hd with rfl | hd
      · exact hf a (h a (List.mem_cons_self a l))
      · exact h d (List.mem_cons_of_mem a hd)
    · rcases List.mem_cons.1 hd with rfl | hd
      · exact h d (List.mem_cons_self d l)
      · exact forall_mem_updateOne P q f hf l (fun e he => h e (List.mem_cons_of_mem a he)) d hd

theorem createPlaylist_playlists (castObjectId : String → Option ObjectId) (ctx : Ctx)
    (s : Store) (name description : Option String) (videos : Option (List String)) :
    (createPlaylist castObjectId ctx name description videos s).2.playlists = s.playlists ∨
      ∃ p, p.videos.Nodup ∧
        (createPlaylist castObjectId ctx name description videos s).1 =
          .ok ⟨200, 200, some p, "Playlist created Successfully"⟩ ∧
        (createPlaylist castObjectId ctx name description videos s).2.playlists =
          s.playlists ++ [p] := by
  unfold createPlaylist
  simp only []
  split
  · exact Or.inl rfl
  · split
    · exact Or.inl rfl
    · exact Or.inr ⟨_, List.nodup_dedup _, rfl, rfl⟩

theorem nodup_addToSet (l : List ObjectId) (v : ObjectId) (h : l.Nodup) :
    (if v ∈ l then l else l ++ [v]).Nodup := by
  split
  · exact h
  · rename_i hv
    exact List.Nodup.append h (List.nodup_singleton v) (by simpa using hv)

theorem addVideoToPlaylist_nodup (castObjectId : String → Option ObjectId) (ctx : Ctx)
    (s : Store) (playlistId videoId : String) (h : PlaylistsNodup s) :
    PlaylistsNodup (addVideoToPlaylist castObjectId ctx playlistId videoId s).2 := by
  unfold addVideoToPlaylist
  simp only []
  repeat' split
  all_goals first
    | exact h
    | (refine forall_mem_updateOne (fun q : Playlist => q.videos.Nodup) _ _ ?_ s.playlists
          (show ∀ d ∈ s.playlists, d.videos.Nodup from h)
       intro p hp
       exact nodup_addToSet p.videos _ hp)

theorem removeVideoFromPlaylist_nodup (castObjectId : String → Option ObjectId) (ctx : Ctx)
    (s : Store) (playlistId videoId : String) (h : PlaylistsNodup s) :
    PlaylistsNodup (removeVideoFromPlaylist castObjectId ctx playlistId videoId s).2 := by
  unfold removeVideoFromPlaylist
  simp only []
  repeat' split
  all_goals first
    | exact h
    | (refine forall_mem_updateOne (fun q : Playlist => q.videos.Nodup) _ _ ?_ s.playlists
          (show ∀ d ∈ s.playlists, d.videos.Nodup from h)
       intro p hp
       exact List.Nodup.filter _ hp)

theorem updatePlaylist_nodup (castObjectId : String → Option ObjectId)
    (s : Store) (playlistId : String) (name description : Option String)
    (h : PlaylistsNodup s) :
    PlaylistsNodup (updatePlaylist castObjectId playlistId name description s).2 := by
  unfold updatePlaylist
  simp only []
  repeat' split
  all_goals first
    | exact h
    | (refine forall_mem_updateOne (fun q : Playlist => q.videos.Nodup) _ _ ?_ s.playlists
          (show ∀ d ∈ s.playlists, d.videos.Nodup from h)
       intro p hp
       exact hp)

theorem toggleSubscription_noSelf (castObjectId : String → Option ObjectId) (ctx : Ctx)
    (channelId : String) (s : Store) (h : NoSelfSubscription s) :
    NoSelfSubscription (toggleSubscription castObjectId ctx channelId s).2 := by
  unfold toggleSubscription
  split
  · exact h
  · rename_i cid hcast
    split
    · exact h
    · rename_i channel hch
      have hid : channel._id = cid := by simpa using List.find?_some hch
      split
      · exact h
      · rename_i hne
        split
        · intro x hx
          exact h x (List.mem_of_mem_eraseP hx)
        · intro x hx
          rcases List.mem_append.1 hx with hx | hx
          · exact h x hx
          · rw [List.mem_singleton.1 hx]
            intro heq
            exact hne (hid.trans heq.symm)

theorem toggleSubscriptionRun_noSelf (castObjectId : String → Option ObjectId) :
    ∀ (reqs : List (Ctx × String)) (s : Store), NoSelfSubscription s →
      NoSelfSubscription (toggleSubscriptionRun castObjectId reqs s)
  | [], _, h => h
  | (ctx, channelId) :: rest, s, h =>
    toggleSubscriptionRun_noSelf castObjectId rest _
      (toggleSubscription_noSelf castObjectId ctx channelId s h)

theorem ite_ok_exists {α : Type} (c : Prop) [Decidable c] (a b : ApiResponse α) (s : Store) :
    ∃ r, (if c then ((Except.ok a : Except Failure (ApiResponse α)), s) else (Except.ok b, s)) =
      (Except.ok r, s) := by
  by_cases h : c
  · exact ⟨a, by rw [if_pos h]⟩
  · exact ⟨b, by rw [if_neg h]⟩

theorem find?_updateOne {α : Type} (p : α → Bool) (f : α → α)
    (hp : ∀ d, p d = true → p (f d) = true) :
    ∀ l : List α, (updateOne p f l).find? p = (l.find? p).map f
  | [] => rfl
  | a :: l => by
    by_cases ha : p a = true
    · simp [updateOne, ha, hp a ha]
    · simp [updateOne, ha, find?_updateOne p f hp l]

theorem updateOne_updateOne {α : Type} (p : α → Bool) (f g : α → α)
    (hp : ∀ d, p d = true → p (f d) = true) :
    ∀ l : List α, updateOne p g (updateOne p f l) = updateOne p (fun d => g (f d)) l
  | [] => rfl
  | a :: l => by
    by_cases ha : p a = true
    · simp [updateOne, ha, hp a ha]
    · simp [updateOne, ha, updateOne_updateOne p f g hp l]

theorem updateOne_eq_self {α : Type} (p : α → Bool) (f : α → α) (hf : ∀ d, f d = d) :
    ∀ l : List α, updateOne p f l = l
  | [] => rfl
  | a :: l => by
    by_cases ha : p a = true
    · simp [updateOne, ha, hf a]
    · simp [updateOne, ha, updateOne_eq_self p f hf l]

theorem togglePublishedStatus_of_owner (castObjectId : String → Option ObjectId) (ctx : Ctx)
    (s : Store) (id : String) (vid : ObjectId) (video : Video)
    (hcast : castObjectId id = some vid)
    (hfind : s.videos.find? (fun v => v._id == vid) = some video)
    (hown : video.owner = ctx.user) :
    togglePublishedStatus castObjectId ctx id s =
      (.ok ⟨200, 200, some { video with isPublished := !video.isPublished },
          "Status is being toggled Successfully!"⟩,
        { s with
          videos := updateOne (fun v => v._id == vid)
                      (fun v => { v with isPublished := !v.isPublished }) s.videos }) := by
  have hfind1 := find?_updateOne (fun v : Video => v._id == vid)
    (fun v => { v with isPublished := !v.isPublished }) (fun _ h => h) s.videos
  rw [hfind] at hfind1
  have hown1 : ¬ video.owner ≠ ctx.user := fun h => h hown
  simp only [togglePublishedStatus, hcast, hfind, hown1, if_false, hfind1, Option.map_some']

theorem splitChars_of_not_mem (sep : Char) :
    ∀ l : List Char, sep ∉ l → splitChars sep l = [l]
  | [], _ => rfl
  | c :: cs, h => by
    have hc : ¬ c = sep := fun e => h (e ▸ List.mem_cons_self c cs)
    have hcs : sep ∉ cs := fun e => h (List.mem_cons_of_mem c e)
    simp [splitChars, splitChars_of_not_mem sep cs hcs, hc]

theorem splitChars_of_mem (sep : Char) :
    ∀ l : List Char, sep ∈ l → ∃ a b rest, splitChars sep l = a :: b :: rest
  | [], h => by cases h
  | c :: cs, h => by
    by_cases hcs : sep ∈ cs
    · obtain ⟨a, b, rest, e⟩ := splitChars_of_mem sep cs hcs
      by_cases hc : c = sep
      · exact ⟨[], a, b :: rest, by simp [splitChars, e, hc]⟩
      · exact ⟨c :: a, b, rest, by simp [splitChars, e, hc]⟩
    · have hc : c = sep := by
        rcases List.mem_cons.1 h with e | e
        · exact e.symm
        · exact absurd e hcs
      exact ⟨[], cs, [], by simp [splitChars, splitChars_of_not_mem sep cs hcs, hc]⟩

theorem splitChars_getLastD (sep : Char) :
    ∀ l : List Char, (splitChars sep l).getLastD [] = afterLast sep l
  | [] => rfl
  | c :: cs => by
    by_cases hcs : sep ∈ cs
    · obtain ⟨a, b, rest, e⟩ := splitChars_of_mem sep cs hcs
      have ih := splitChars_getLastD sep cs
      rw [e] at ih
      have hlast : afterLast sep (c :: cs) = afterLast sep cs := by
        show (if sep ∈ cs then _ else _) = _
        rw [if_pos hcs]
      rw [hlast, ← ih]
      by_cases hc : c = sep
      · simp [splitChars, e, hc]
      · simp [splitChars, e, hc]
    · have hsplit := splitChars_of_not_mem sep cs hcs
      by_cases hc : c = sep
      · have hlast : afterLast sep (c :: cs) = cs := by
          show (if sep ∈ cs then _ else _) = _
          rw [if_neg hcs, if_pos hc]
        rw [hlast]
        simp [splitChars, hsplit, hc]
      · have hlast : afterLast sep (c :: cs) = c :: cs := by
          show (if sep ∈ cs then _ else _) = _
          rw [if_neg hcs, if_neg hc]
        rw [hlast]
        simp [splitChars, hsplit, hc]

theorem splitChars_headD (sep : Char) :
    ∀ l : List Char, (splitChars sep l).headD [] = beforeFirst sep l
  | [] => rfl
  | c :: cs => by
    have ih := splitChars_headD sep cs
    have hne : ∃ a rest, splitChars sep cs = a :: rest := by
      by_cases hcs : sep ∈ cs
      · obtain ⟨a, b, rest, e⟩ := splitChars_of_mem sep cs hcs
        exact ⟨a, b :: rest, e⟩
      · exact ⟨cs, [], splitChars_of_not_mem sep cs hcs⟩
    obtain ⟨a, rest, e⟩ := hne
    rw [e] at ih
    have ih' : a = beforeFirst sep cs := ih
    by_cases hc : c = sep
    · have hb : (c != sep) = false := by simp [hc]
      have h1 : beforeFirst sep (c :: cs) = [] := by
        simp only [beforeFirst, List.takeWhile_cons, hb]
        rfl
      rw [h1]
      simp [splitChars, e, hc]
    · have hb : (c != sep) = true := by simp [hc]
      have h1 : beforeFirst sep (c :: cs) = c :: beforeFirst sep cs := by
        simp only [beforeFirst, List.takeWhile_cons, hb]
        rfl
      rw [h1, ← ih']
      simp [splitChars, e, hc]

theorem not_mem_afterLast (sep : Char) : ∀ l : List Char, sep ∉ afterLast sep l
  | [] => by simp [afterLast]
  | c :: cs => by
    by_cases hcs : sep ∈ cs
    · have hlast : afterLast sep (c :: cs) = afterLast sep cs := by
        show (if sep ∈ cs then _ else _) = _
        rw [if_pos hcs]
      rw [hlast]
      exact not_mem_afterLast sep cs
    · by_cases hc : c = sep
      · have hlast : afterLast sep (c :: cs) = cs := by
          show (if sep ∈ cs then _ else _) = _
          rw [if_neg hcs, if_pos hc]
        rw [hlast]
        exact hcs
      · have hlast : afterLast sep (c :: cs) = c :: cs := by
          show (if sep ∈ cs then _ else _) = _
          rw [if_neg hcs, if_neg hc]
        rw [hlast]
        intro h
        rcases List.mem_cons.1 h with e | e
        · exact hc e.symm
        · exact hcs e

theorem not_mem_beforeFirst (sep : Char) (l : List Char) : sep ∉ beforeFirst sep l := by
  intro h
  have := List.mem_takeWhile_imp h
  simp at this

theorem mem_of_mem_beforeFirst (sep c : Char) (l : List Char) (h : c ∈ beforeFirst sep l) :
    c ∈ l :=
  (List.takeWhile_sublist _).subset h

theorem startsWithChars_iff : ∀ pat l : List Char,
    startsWithChars pat l = true ↔ ∃ t, pat ++ t = l
  | [], l => by simp [startsWithChars]
  | p :: ps, [] => by simp [startsWithChars]
  | p :: ps, c :: cs => by
    simp only [startsWithChars, Bool.and_eq_true, beq_iff_eq, startsWithChars_iff ps cs,
      List.cons_append, List.cons.injEq]
    constructor
    · rintro ⟨rfl, t, rfl⟩
      exact ⟨t, rfl, rfl⟩
    · rintro ⟨t, rfl, rfl⟩
      exact ⟨rfl, t, rfl⟩

theorem includesChars_iff (pat : List Char) :
    ∀ l : List Char, includesChars pat l = true ↔ pat <:+: l
  | [] => by
    simp [includesChars, List.isEmpty_iff]
  | c :: cs => by
    rw [includesChars, Bool.or_eq_true, startsWithChars_iff, includesChars_iff pat cs,
      List.infix_cons_iff]
    rfl

/-! ## Order of sort keys -/

theorem StrictTotal.asymm {α : Type} {lt : α → α → Bool} (h : StrictTotal lt) (a b : α)
    (hab : lt a b = true) : lt b a = false := by
  cases hba : lt b a with
  | false => rfl
  | true =>
    have := h.trans a b a hab hba
    rw [h.irrefl] at this
    cases this

theorem lexLe_refl {α : Type} {lt : α → α → Bool} (h : StrictTotal lt) :
    ∀ l : List α, lexLe lt l l = true
  | [] => rfl
  | a :: l => by simp [lexLe, h.irrefl, lexLe_refl h l]

theorem lexLe_total {α : Type} {lt : α → α → Bool} (h : StrictTotal lt) :
    ∀ l m : List α, lexLe lt l m = true ∨ lexLe lt m l = true
  | [], _ => Or.inl rfl
  | _ :: _, [] => Or.inr rfl
  | a :: l, b :: m => by
    cases hab : lt a b with
    | true => left; simp [lexLe, hab]
    | false =>
      cases hba : lt b a with
      | true => right; simp [lexLe, hba]
      | false =>
        simp only [lexLe, hab, hba, Bool.false_eq_true, if_false]
        exact lexLe_total h l m

theorem lexLe_antisymm {α : Type} {lt : α → α → Bool} (h : StrictTotal lt) :
    ∀ l m : List α, lexLe lt l m = true → lexLe lt m l = true → l = m
  | [], [], _, _ => rfl
  | [], _ :: _, _, h2 => by simp [lexLe] at h2
  | _ :: _, [], h1, _ => by simp [lexLe] at h1
  | a :: l, b :: m, h1, h2 => by
    cases hab : lt a b with
    | true =>
      have hba := h.asymm a b hab
      simp [lexLe, hab, hba] at h2
    | false =>
      cases hba : lt b a with
      | true => simp [lexLe, hab, hba] at h1
      | false =>
        simp only [lexLe, hab, hba, Bool.false_eq_true, if_false] at h1 h2
        rw [h.tri a b hab hba, lexLe_antisymm h l m h1 h2]

theorem lexLe_trans {α : Type} {lt : α → α → Bool} (h : StrictTotal lt) :
    ∀ l m n : List α, lexLe lt l m = true → lexLe lt m n = true → lexLe lt l n = true
  | [], _, _, _, _ => rfl
  | _ :: _, [], _, h1, _ => by simp [lexLe] at h1
  | _ :: _, _ :: _, [], _, h2 => by simp [lexLe] at h2
  | a :: l, b :: m, c :: n, h1, h2 => by
    cases hab : lt a b with
    | true =>
      cases hbc : lt b c with
      | true => simp [lexLe, h.trans a b c hab hbc]
      | false =>
        cases hcb : lt c b with
        | true => simp [lexLe, hbc, hcb] at h2
        | false =>
          have e := h.tri b c hbc hcb
          subst e
          simp [lexLe, hab]
    | false =>
      cases hba : lt b a with
      | true => simp [lexLe, hab, hba] at h1
      | false =>
        have e := h.tri a b hab hba
        subst e
        simp only [lexLe, hab, Bool.false_eq_true, if_false] at h1
        cases hac : lt a c with
        | true => simp [lexLe, hac]
        | false =>
          cases hca : lt c a with
          | true => simp [lexLe, hac, hca] at h2
          | false =>
            simp only [lexLe, hac, hca, Bool.false_eq_true, if_false] at h2 ⊢
            exact lexLe_trans h l m n h1 h2


theorem strictTotal_charLt : StrictTotal charLt where
  irrefl a := by simp [charLt]
  trans a b c h1 h2 := by
    simp only [charLt, decide_eq_true_eq] at *
    omega
  tri a b h1 h2 := by
    simp only [charLt, decide_eq_false_iff_not] at *
    have e : a.toNat = b.toNat := by omega
    rw [← Char.ofNat_toNat a, ← Char.ofNat_toNat b, e]

theorem charsLe_eq_lexLe : ∀ a b : List Char, charsLe a b = lexLe charLt a b
  | [], _ => rfl
  | _ :: _, [] => rfl
  | a :: as, b :: bs => by
    simp only [charsLe, lexLe, charLt, decide_eq_true_eq, charsLe_eq_lexLe as bs]

theorem strictTotal_strict {α : Type} {lt : α → α → Bool} (h : StrictTotal lt) :
    StrictTotal (fun l m : List α => !lexLe lt m l) where
  irrefl a := by simp [lexLe_refl h a]
  trans a b c h1 h2 := by
    simp only [Bool.not_eq_true'] at *
    cases hca : lexLe lt c a with
    | false => rfl
    | true =>
      have hab : lexLe lt a b = true := (lexLe_total h a b).resolve_right (by simp [h1])
      have := lexLe_trans h c a b hca hab
      rw [h2] at this
      cases this
  tri a b h1 h2 := by
    simp only [Bool.not_eq_false'] at *
    exact lexLe_antisymm h a b h2 h1

theorem strictTotal_charsLt : StrictTotal charsLt := by
  have h := strictTotal_strict strictTotal_charLt
  have e : charsLt = fun l m : List Char => !lexLe charLt m l := by
    funext l m
    simp [charsLt, charsLe_eq_lexLe]
  rw [e]
  exact h

theorem strictTotal_fieldLt : StrictTotal fieldLt where
  irrefl p := by simp [fieldLt, strictTotal_charsLt.irrefl]
  trans p q r h1 h2 := by
    have hs := strictTotal_charsLt
    simp only [fieldLt, Bool.or_eq_true, Bool.and_eq_true, Bool.not_eq_true'] at *
    rcases h1 with h1 | ⟨h1a, h1b⟩
    · rcases h2 with h2 | ⟨h2a, h2b⟩
      · exact Or.inl (hs.trans _ _ _ h1 h2)
      · cases h3 : charsLt q.1.data r.1.data with
        | true => exact Or.inl (hs.trans _ _ _ h1 h3)
        | false =>
          have e := hs.tri _ _ h3 h2a
          rw [← e]
          exact Or.inl h1
    · rcases h2 with h2 | ⟨h2a, h2b⟩
      · cases h3 : charsLt p.1.data q.1.data with
        | true => exact Or.inl (hs.trans _ _ _ h3 h2)
        | false =>
          have e := hs.tri _ _ h3 h1a
          rw [e]
          exact Or.inl h2
      · cases h3 : charsLt p.1.data q.1.data with
        | true =>
          cases h4 : charsLt q.1.data r.1.data with
          | true => exact Or.inl (hs.trans _ _ _ h3 h4)
          | false =>
            have e := hs.tri _ _ h4 h2a
            rw [← e]
            exact Or.inl h3
        | false =>
          have e := hs.tri _ _ h3 h1a
          rw [e]
          exact Or.inr ⟨h2a, hs.trans _ _ _ h1b h2b⟩
  tri p q h1 h2 := by
    have hs := strictTotal_charsLt
    simp only [fieldLt, Bool.or_eq_false_iff, Bool.and_eq_false_iff, Bool.not_eq_false'] at *
    obtain ⟨h1a, h1b⟩ := h1
    obtain ⟨h2a, h2b⟩ := h2
    have e1 := hs.tri _ _ h1a h2a
    have h1c : charsLt p.2.data q.2.data = false := by
      rcases h1b with h | h
      · rw [h2a] at h; cases h
      · exact h
    have h2c : charsLt q.2.data p.2.data = false := by
      rcases h2b with h | h
      · rw [h1a] at h; cases h
      · exact h
    have e2 := hs.tri _ _ h1c h2c
    exact Prod.ext (String.ext e1) (String.ext e2)

theorem fieldsLe_eq_lexLe : ∀ a b : List (String × String), fieldsLe a b = lexLe fieldLt a b
  | [], _ => rfl
  | _ :: _, [] => rfl
  | (k, v) :: as, (k', v') :: bs => by
    simp only [fieldsLe, lexLe, fieldLt, fieldsLe_eq_lexLe as bs]
    rcases Bool.eq_false_or_eq_true (charsLt k.data k'.data) with h1 | h1 <;>
      rcases Bool.eq_false_or_eq_true (charsLt k'.data k.data) with h2 | h2 <;>
      rcases Bool.eq_false_or_eq_true (charsLt v.data v'.data) with h3 | h3 <;>
      rcases Bool.eq_false_or_eq_true (charsLt v'.data v.data) with h4 | h4 <;>
      simp [h1, h2, h3, h4]

theorem charsLe_refl (a : List Char) : charsLe a a = true := by
  rw [charsLe_eq_lexLe]; exact lexLe_refl strictTotal_charLt a

theorem charsLe_total (a b : List Char) : charsLe a b = true ∨ charsLe b a = true := by
  rw [charsLe_eq_lexLe, charsLe_eq_lexLe]; exact lexLe_total strictTotal_charLt a b

theorem charsLe_trans (a b c : List Char) (h1 : charsLe a b = true) (h2 : charsLe b c = true) :
    charsLe a c = true := by
  rw [charsLe_eq_lexLe] at *; exact lexLe_trans strictTotal_charLt a b c h1 h2

theorem charsLe_antisymm (a b : List Char) (h1 : charsLe a b = true) (h2 : charsLe b a = true) :
    a = b := by
  rw [charsLe_eq_lexLe] at *; exact lexLe_antisymm strictTotal_charLt a b h1 h2

theorem fieldsLe_refl (a : List (String × String)) : fieldsLe a a = true := by
  rw [fieldsLe_eq_lexLe]; exact lexLe_refl strictTotal_fieldLt a

theorem fieldsLe_total (a b : List (String × String)) :
    fieldsLe a b = true ∨ fieldsLe b a = true := by
  rw [fieldsLe_eq_lexLe, fieldsLe_eq_lexLe]; exact lexLe_total strictTotal_fieldLt a b

theorem fieldsLe_trans (a b c : List (String × String)) (h1 : fieldsLe a b = true)
    (h2 : fieldsLe b c = true) : fieldsLe a c = true := by
  rw [fieldsLe_eq_lexLe] at *; exact lexLe_trans strictTotal_fieldLt a b c h1 h2

theorem fieldsLe_antisymm (a b : List (String × String)) (h1 : fieldsLe a b = true)
    (h2 : fieldsLe b a = true) : a = b := by
  rw [fieldsLe_eq_lexLe] at *; exact lexLe_antisymm strictTotal_fieldLt a b h1 h2

theorem Value.le_refl (a : Value) : a.le a = true := by
  cases a <;> simp [Value.le, charsLe_refl, fieldsLe_refl]

theorem Value.le_total (a b : Value) : a.le b = true ∨ b.le a = true := by
  cases a <;> cases b <;> simp [Value.le, Value.rank] <;>
    first
      | exact Nat.le_total _ _
      | exact charsLe_total _ _
      | exact fieldsLe_total _ _
      | (rename_i x y; cases x <;> cases y <;> simp)

theorem Value.le_antisymm (a b : Value) (h1 : a.le b = true) (h2 : b.le a = true) : a = b := by
  cases a <;> cases b <;> simp [Value.le, Value.rank] at h1 h2 ⊢ <;>
    first
      | exact Nat.le_antisymm h1 h2
      | exact String.ext (charsLe_antisymm _ _ h1 h2)
      | exact fieldsLe_antisymm _ _ h1 h2
      | (rename_i x y; cases x <;> cases y <;> simp at h1 h2 ⊢)

theorem Value.le_trans (a b c : Value) (h1 : a.le b = true) (h2 : b.le c = true) :
    a.le c = true := by
  cases a <;> cases b <;> cases c <;> simp [Value.le, Value.rank] at h1 h2 ⊢ <;>
    first
      | exact Nat.le_trans h1 h2
      | exact charsLe_trans _ _ _ h1 h2
      | exact fieldsLe_trans _ _ _ h1 h2
      | (rename_i x y z; cases x <;> cases y <;> cases z <;> simp at h1 h2 ⊢)

theorem eq_of_map_eq_of_injOn {α β : Type} (f : α → β) :
    ∀ l m : List α, (∀ x ∈ l, ∀ y ∈ m, f x = f y → x = y) → l.map f = m.map f → l = m
  | [], [], _, _ => rfl
  | [], _ :: _, _, h => by simp at h
  | _ :: _, [], _, h => by simp at h
  | a :: l, b :: m, hinj, h => by
    simp only [List.map_cons, List.cons.injEq] at h
    have e : a = b := hinj a (List.mem_cons_self _ _) b (List.mem_cons_self _ _) h.1
    have t : l = m :=
      eq_of_map_eq_of_injOn f l m
        (fun x hx y hy => hinj x (List.mem_cons_of_mem _ hx) y (List.mem_cons_of_mem _ hy)) h.2
    rw [e, t]

/-- Two arrangements of the same rows that are both sorted by a key on which no
two rows tie are the same list. -/
theorem sorted_perm_unique {α : Type} (key : α → Value) (r : Value → Value → Prop)
    [IsAntisymm Value r] {l m : List α} (hp : l.Perm m) (hk : NoTies key l)
    (hl : l.Pairwise (fun a b => r (key a) (key b)))
    (hm : m.Pairwise (fun a b => r (key a) (key b))) : l = m := by
  apply eq_of_map_eq_of_injOn key
  · intro x hx y hy hxy
    by_contra hne
    have hk2 : l.Pairwise (fun a b => key a ≠ key b) := hk
    exact hk2.forall (fun a b h => Ne.symm h) hx (hp.symm.subset hy) hne hxy
  · exact List.eq_of_perm_of_sorted (r := r) (hp.map key) (List.pairwise_map.2 hl)
      (List.pairwise_map.2 hm)

theorem NoTies.perm {α : Type} (key : α → Value) {l m : List α} (hp : l.Perm m)
    (hk : NoTies key l) : NoTies key m := by
  unfold NoTies at *
  exact (hp.pairwise_iff (fun {a b} h => Ne.symm h)).1 hk

theorem sortStage_perm {α : Type} (key : α → Value) (ascending : Bool) (rows : List α) :
    (sortStage key ascending rows).Perm rows := by
  cases ascending
  · exact List.perm_insertionSort _ rows
  · exact List.perm_insertionSort _ rows

theorem sortStage_sorted {α : Type} (key : α → Value) (ascending : Bool) (rows : List α) :
    (sortStage key ascending rows).Pairwise
      (fun a b => if ascending = true then (key a).le (key b) = true
        else (key b).le (key a) = true) := by
  cases ascending
  · haveI : IsTotal α (fun a b => (key b).le (key a) = true) :=
      ⟨fun a b => Value.le_total (key b) (key a)⟩
    haveI : IsTrans α (fun a b => (key b).le (key a) = true) :=
      ⟨fun a b c h1 h2 => Value.le_trans (key c) (key b) (key a) h2 h1⟩
    exact List.sorted_insertionSort (fun a b => (key b).le (key a) = true) rows
  · haveI : IsTotal α (fun a b => (key a).le (key b) = true) :=
      ⟨fun a b => Value.le_total (key a) (key b)⟩
    haveI : IsTrans α (fun a b => (key a).le (key b) = true) :=
      ⟨fun a b c h1 h2 => Value.le_trans (key a) (key b) (key c) h1 h2⟩
    exact List.sorted_insertionSort (fun a b => (key a).le (key b) = true) rows

/-- The example store `stableStore` keeps the promise of the store. -/
theorem stableStore_sorts : stableStore.Sorts := by
  intro α field path direction rows
  have hp := sortStage_perm (field path) (direction == 1) rows
  have hs := sortStage_sorted (field path) (direction == 1) rows
  refine ⟨hp, ?_⟩
  simp only [beq_iff_eq] at hs
  exact hs

/-- The example store `reversingStore` keeps the promise of the store. -/
theorem reversingStore_sorts : reversingStore.Sorts := by
  intro α field path direction rows
  have hp := sortStage_perm (field path) (direction == 1) rows.reverse
  have hs := sortStage_sorted (field path) (direction == 1) rows.reverse
  refine ⟨hp.trans (List.reverse_perm rows), ?_⟩
  simp only [beq_iff_eq] at hs
  exact hs

/-- Two stores that keep the promise pass on the same list for a single key on
which no two rows tie, whatever the arrangement in which the rows arrive. -/
theorem order_eq_of_sorts {α : Type} {sorter sorter' : StoreSort} (h : sorter.Sorts)
    (h' : sorter'.Sorts) (field : String → α → Value) (path : String) (direction : Int)
    {rows rows' : List α} (hp : rows.Perm rows') (hk : NoTies (field path) rows) :
    sorter'.order α field [(path, direction)] rows' =
      sorter.order α field [(path, direction)] rows := by
  obtain ⟨p1, s1⟩ := h α field path direction rows
  obtain ⟨p2, s2⟩ := h' α field path direction rows'
  have hperm := p2.trans (hp.symm.trans p1.symm)
  have hk2 := NoTies.perm (field path) (hp.trans p2.symm) hk
  by_cases hd : direction = 1
  · simp only [if_pos hd] at s1 s2
    haveI : IsAntisymm Value (fun a b => a.le b = true) :=
      ⟨fun a b h1 h2 => Value.le_antisymm a b h1 h2⟩
    exact sorted_perm_unique (field path) (fun a b => a.le b = true) hperm hk2 s2 s1
  · simp only [if_neg hd] at s1 s2
    haveI : IsAntisymm Value (fun a b => b.le a = true) :=
      ⟨fun a b h1 h2 => Value.le_antisymm a b h2 h1⟩
    exact sorted_perm_unique (field path) (fun a b => b.le a = true) hperm hk2 s2 s1

theorem sortObject_of_ne (sortBy : Option String) (direction : Int)
    (h : sortBy ≠ some "__proto__") :
    sortObject (sortBy.getD "undefined") direction = [(sortBy.getD "undefined", direction)] := by
  have hne : sortBy.getD "undefined" ≠ "__proto__" := by
    cases hsb : sortBy with
    | none => decide
    | some k =>
      intro e
      apply h
      rw [hsb]
      exact congrArg some e
  simp only [sortObject, hne, if_false]

/-! ## Listings and the choice of the store among tied rows -/

theorem getAllVideos_determined (castObjectId : String → Option ObjectId)
    (regexTest : String → String → Bool) {sorter sorter' : StoreSort} (h : sorter.Sorts)
    (h' : sorter'.Sorts) (hr : sorter'.reject = sorter.reject) (q : ListQuery) (s : Store)
    (videos : List Video) (hp : s.videos.Perm videos) (hproto : q.sortBy ≠ some "__proto__")
    (hk : NoTies (fun v => VideoRow.field (q.sortBy.getD "undefined") (allVideosRow s v))
      (s.videos.filter (fun v => v.isPublished))) :
    (getAllVideos castObjectId regexTest sorter' q { s with videos := videos }).1 =
      (getAllVideos castObjectId regexTest sorter q s).1 := by
  have hrows : ∀ owner direction,
      sorter'.order VideoRow VideoRow.field [(q.sortBy.getD "undefined", direction)]
        ((videos.filter (allVideosMatch regexTest owner q.query)).map (allVideosRow s)) =
      sorter.order VideoRow VideoRow.field [(q.sortBy.getD "undefined", direction)]
        ((s.videos.filter (allVideosMatch regexTest owner q.query)).map (allVideosRow s)) := by
    intro owner direction
    apply order_eq_of_sorts h h' _ _ _ ((hp.filter _).map _)
    apply List.pairwise_map.2
    apply List.Pairwise.sublist _ hk
    apply List.monotone_filter_right
    intro a ha
    simp only [allVideosMatch, Bool.and_eq_true] at ha
    exact ha.1.1
  have hrow : allVideosRow { s with videos := videos } = allVideosRow s := rfl
  simp only [getAllVideos, sortObject_of_ne q.sortBy _ hproto, hr, hrow, hrows,
    apply_ite Prod.fst]
  cases sorter.reject [(q.sortBy.getD "undefined", if q.sortType = some "asc" then 1 else -1)]
    <;> simp only [apply_ite Prod.fst]

theorem getChannelVideos_determined (castObjectId : String → Option ObjectId)
    {sorter sorter' : StoreSort} (h : sorter.Sorts) (h' : sorter'.Sorts)
    (hr : sorter'.reject = sorter.reject) (q : ListQuery) (s : Store)
    (videos : List Video) (hp : s.videos.Perm videos) (hproto : q.sortBy ≠ some "__proto__")
    (hk : NoTies (fun v => VideoRow.field (q.sortBy.getD "undefined") (channelVideosRow v))
      (s.videos.filter (fun v => v.isPublished))) :
    (getChannelVideos castObjectId sorter' q { s with videos := videos }).1 =
      (getChannelVideos castObjectId sorter q s).1 := by
  have hrows : ∀ channel : ObjectId,
      sorter'.order VideoRow VideoRow.field [(q.sortBy.getD "undefined", 1)]
        ((videos.filter (fun v => v.isPublished && v.owner == channel)).map channelVideosRow) =
      sorter.order VideoRow VideoRow.field [(q.sortBy.getD "undefined", 1)]
        ((s.videos.filter (fun v => v.isPublished && v.owner == channel)).map
          channelVideosRow) := by
    intro channel
    apply order_eq_of_sorts h h' _ _ _ ((hp.filter _).map _)
    apply List.pairwise_map.2
    apply List.Pairwise.sublist _ hk
    apply List.monotone_filter_right
    intro a ha
    simp only [Bool.and_eq_true] at ha
    exact ha.1
  simp only [getChannelVideos, sortObject_of_ne q.sortBy _ hproto, hr, hrows,
    apply_ite Prod.fst]
  cases q.channelId.bind castObjectId with
  | none => rfl
  | some channel =>
    simp only []
    cases sorter.reject [(q.sortBy.getD "undefined", 1)] <;> simp only [apply_ite Prod.fst]

theorem getVideoComments_determined (castObjectId : String → Option ObjectId)
    {sorter sorter' : StoreSort} (h : sorter.Sorts) (h' : sorter'.Sorts)
    (hr : sorter'.reject = sorter.reject) (videoId : String) (page limit : Option Int)
    (s : Store) (comments : List Comment) (hp : s.comments.Perm comments)
    (hk : s.comments.Pairwise (fun a b => a.video = b.video → a.createdAt ≠ b.createdAt)) :
    (getVideoComments castObjectId sorter' videoId page limit
        { s with comments := comments }).1 =
      (getVideoComments castObjectId sorter videoId page limit s).1 := by
  have hrows : ∀ vid : ObjectId,
      videoCommentRows sorter' { s with comments := comments } vid =
        videoCommentRows sorter s vid := by
    intro vid
    have hpop : populateUser { s with comments := comments } = populateUser s := rfl
    simp only [videoCommentRows, hpop]
    congr 1
    apply order_eq_of_sorts h h' _ _ _ (hp.filter _)
    apply List.Pairwise.imp_of_mem _ (hk.filter _)
    intro a b ha hb hab
    simp only [List.mem_filter, beq_iff_eq] at ha hb
    intro e
    apply hab (ha.2.trans hb.2.symm)
    simpa [Comment.field] using e
  simp only [getVideoComments, hr, hrows, apply_ite Prod.fst]
  cases (castObjectId videoId).bind (fun id => s.videos.find? (fun v => v._id == id)) with
  | none => rfl
  | some video =>
    simp only []
    cases sorter.reject [("createdAt", -1)] <;> simp only [apply_ite Prod.fst]


/-! ## Like toggles -/

/-- C2. For a target that exists and a store whose like `_id`s are pairwise
different and which holds at most one like for the (target, user) pair:
`toggleVideoLike`, `toggleCommentLike` and `toggleTweetLike` each reply with a
success and either append exactly one like for the pair (when there was none) or
remove the like of the pair (when there was one); all other likes are as before. -/
theorem toggleLike_creates_or_deletes (castObjectId : String → Option ObjectId) (ctx : Ctx)
    (s : Store) (videoId commentId tweetId : String) (vid cid tid : ObjectId)
    (hids : (s.likes.map Like._id).Nodup) :
    (castObjectId videoId = some vid → (∃ v ∈ s.videos, v._id = vid) →
      s.likes.countP (fun l => l.video == some vid && l.likedBy == ctx.user) ≤ 1 →
      LikeToggled Like.video vid ctx s (toggleVideoLike castObjectId ctx videoId s)) ∧
    (castObjectId commentId = some cid → (∃ c ∈ s.comments, c._id = cid) →
      s.likes.countP (fun l => l.comment == some cid && l.likedBy == ctx.user) ≤ 1 →
      LikeToggled Like.comment cid ctx s (toggleCommentLike castObjectId ctx commentId s)) ∧
    (castObjectId tweetId = some tid → (∃ t ∈ s.tweets, t._id = tid) →
      s.likes.countP (fun l => l.tweet == some tid && l.likedBy == ctx.user) ≤ 1 →
      LikeToggled Like.tweet tid ctx s (toggleTweetLike castObjectId ctx tweetId s)) := by
  refine ⟨?_, ?_, ?_⟩
  · intro hcast hex hone
    obtain ⟨v, hv⟩ := find?_id_isSome Video._id s.videos vid hex
    refine ⟨fun hnone => ?_, fun l hl h1 h2 => ?_⟩
    · have hf : s.likes.find? (fun l => l.video == some vid && l.likedBy == ctx.user) = none :=
        List.find?_eq_none.2 (fun l hl => by simpa using hnone l hl)
      exact ⟨⟨s.nextId, some vid, none, none, ctx.user, ctx.now⟩, "Video Liked Successfully", rfl, rfl, by simp [toggleVideoLike, hcast, hv, hf]⟩
    · have hf := find?_eq_some_of_countP_le_one _ s.likes l hone hl (by simp [h1, h2])
      exact ⟨"Video unliked Successfully",
        by simp [toggleVideoLike, hcast, hv, hf, eraseP_key_eq_erase Like._id s.likes l hids hl]⟩
  · intro hcast hex hone
    obtain ⟨v, hv⟩ := find?_id_isSome Comment._id s.comments cid hex
    refine ⟨fun hnone => ?_, fun l hl h1 h2 => ?_⟩
    · have hf : s.likes.find? (fun l => l.comment == some cid && l.likedBy == ctx.user) = none :=
        List.find?_eq_none.2 (fun l hl => by simpa using hnone l hl)
      exact ⟨⟨s.nextId, none, some cid, none, ctx.user, ctx.now⟩, "Comment liked Successfully", rfl, rfl, by simp [toggleCommentLike, hcast, hv, hf]⟩
    · have hf := find?_eq_some_of_countP_le_one _ s.likes l hone hl (by simp [h1, h2])
      exact ⟨"Comment unliked Successfully",
        by simp [toggleCommentLike, hcast, hv, hf, eraseP_key_eq_erase Like._id s.likes l hids hl]⟩
  · intro hcast hex hone
    obtain ⟨v, hv⟩ := find?_id_isSome Tweet._id s.tweets tid hex
    refine ⟨fun hnone => ?_, fun l hl h1 h2 => ?_⟩
    · have hf : s.likes.find? (fun l => l.tweet == some tid && l.likedBy == ctx.user) = none :=
        List.find?_eq_none.2 (fun l hl => by simpa using hnone l hl)
      exact ⟨⟨s.nextId, none, none, some tid, ctx.user, ctx.now⟩, "Tweet like Successfully", rfl, rfl, by simp [toggleTweetLike, hcast, hv, hf]⟩
    · have hf := find?_eq_some_of_countP_le_one _ s.likes l hone hl (by simp [h1, h2])
      exact ⟨"Tweet unliked Successfully",
        by simp [toggleTweetLike, hcast, hv, hf, eraseP_key_eq_erase Like._id s.likes l hids hl]⟩

/-- The like toggles on the example store in which user 2 likes video 5. -/
theorem toggleLike_creates_or_deletes_witness :
    LikeToggled Like.video 5 { user := 2 } likedStore
        (toggleVideoLike hexObjectId { user := 2 } id5 likedStore) ∧
      LikeToggled Like.comment 6 { user := 2 } likedStore
        (toggleCommentLike hexObjectId { user := 2 } id6 likedStore) ∧
      LikeToggled Like.tweet 7 { user := 2 } likedStore
        (toggleTweetLike hexObjectId { user := 2 } id7 likedStore) :=
  have h := toggleLike_creates_or_deletes hexObjectId { user := 2 } likedStore id5 id6 id7 5 6 7
    (by decide)
  ⟨h.1 (by decide) (by decide) (by decide), h.2.1 (by decide) (by decide) (by decide),
    h.2.2 (by decide) (by decide) (by decide)⟩

/-! ## Toggling twice -/

/-- C3, as stated, fails on a store that holds two subscription records for the
same (subscriber, channel) pair: both toggles succeed, each removes one record,
and the pair (2, 1), present before, is absent afterwards. -/
theorem toggleSubscription_twice_counterexample :
    (toggleSubscription hexObjectId { user := 2 } id1 twiceSubscribedStore).1 =
        .ok ⟨200, 200, none, "User Unsubscribed the channel Successfully"⟩ ∧
      (toggleSubscription hexObjectId { user := 2 } id1
          (toggleSubscription hexObjectId { user := 2 } id1 twiceSubscribedStore).2).1 =
        .ok ⟨200, 200, none, "User Unsubscribed the channel Successfully"⟩ ∧
      (2, 1) ∈ subscriptionPairs twiceSubscribedStore ∧
      (2, 1) ∉ subscriptionPairs
        (toggleSubscription hexObjectId { user := 2 } id1
          (toggleSubscription hexObjectId { user := 2 } id1 twiceSubscribedStore).2).2 := by
  refine ⟨rfl, rfl, by decide, by decide⟩

/-- C3, amended. On a store whose `_id`s are unique and which holds at most one
record for the pair, two successive `toggleSubscription` calls by a user on an
existing channel other than themselves both succeed and leave the set of
(subscriber, channel) pairs as it was; likewise two successive `toggleVideoLike`
calls on an existing video leave the set of (liker, video) pairs as it was. -/
theorem toggle_twice_restores_pairs (castObjectId : String → Option ObjectId) (ctx ctx' : Ctx)
    (s : Store) (channelId videoId : String) (c v : ObjectId) (huser : ctx'.user = ctx.user) :
    (castObjectId channelId = some c → (∃ u ∈ s.users, u._id = c) → c ≠ ctx.user →
      UniqueIds Subscription._id s.subscriptions s.nextId →
      s.subscriptions.countP (fun x => x.subscriber == ctx.user && x.channel == c) ≤ 1 →
      (∃ a, (toggleSubscription castObjectId ctx channelId s).1 = .ok a) ∧
      (∃ b, (toggleSubscription castObjectId ctx' channelId
          (toggleSubscription castObjectId ctx channelId s).2).1 = .ok b) ∧
      ∀ p, p ∈ subscriptionPairs (toggleSubscription castObjectId ctx' channelId
          (toggleSubscription castObjectId ctx channelId s).2).2 ↔ p ∈ subscriptionPairs s) ∧
    (castObjectId videoId = some v → (∃ x ∈ s.videos, x._id = v) →
      UniqueIds Like._id s.likes s.nextId →
      s.likes.countP (fun l => l.video == some v && l.likedBy == ctx.user) ≤ 1 →
      (∃ a, (toggleVideoLike castObjectId ctx videoId s).1 = .ok a) ∧
      (∃ b, (toggleVideoLike castObjectId ctx' videoId
          (toggleVideoLike castObjectId ctx videoId s).2).1 = .ok b) ∧
      ∀ p, p ∈ videoLikePairs (toggleVideoLike castObjectId ctx' videoId
          (toggleVideoLike castObjectId ctx videoId s).2).2 ↔ p ∈ videoLikePairs s) := by
  refine ⟨?_, ?_⟩
  · intro hcast hex hne hU hone
    obtain ⟨ch, hch⟩ := find?_id_isSome User._id s.users c hex
    have hchid : ch._id = c := by simpa using List.find?_some hch
    have hne1 : ¬ ch._id = ctx.user := by rw [hchid]; exact hne
    cases hf : s.subscriptions.find? (fun x => x.subscriber == ctx.user && x.channel == c) with
    | none =>
      have e1 : toggleSubscription castObjectId ctx channelId s =
          (.ok ⟨200, 200, some ⟨s.nextId, ctx.user, c, ctx.now⟩,
              "User Unsubscribed the channel Successfully"⟩,
            { s with subscriptions := s.subscriptions ++ [⟨s.nextId, ctx.user, c, ctx.now⟩],
                     nextId := s.nextId + 1 }) := by
        simp [toggleSubscription, hcast, hch, hne1, hf]
      have hf2 := find?_append_new (fun x : Subscription => x.subscriber == ctx.user && x.channel == c)
        s.subscriptions ⟨s.nextId, ctx.user, c, ctx.now⟩ hf (by simp)
      have he2 := eraseP_append_new Subscription._id s.subscriptions s.nextId hU.2
        ⟨s.nextId, ctx.user, c, ctx.now⟩ rfl
      have e2 : toggleSubscription castObjectId ctx' channelId
          { s with subscriptions := s.subscriptions ++ [⟨s.nextId, ctx.user, c, ctx.now⟩],
                   nextId := s.nextId + 1 } =
          (.ok ⟨200, 200, none, "User Unsubscribed the channel Successfully"⟩,
            { s with nextId := s.nextId + 1 }) := by
        simp only [toggleSubscription, hcast, hch, huser, hne1, if_false, hf2, he2]
      rw [e1]
      refine ⟨⟨_, rfl⟩, ?_, ?_⟩
      · rw [e2]; exact ⟨_, rfl⟩
      · rw [e2]; intro p; rfl
    | some l =>
      have hl : l ∈ s.subscriptions := List.mem_of_find?_eq_some hf
      have hpl0 := List.find?_some hf
      have hpl : (l.subscriber == ctx.user && l.channel == c) = true := hpl0
      have her := eraseP_key_eq_erase Subscription._id s.subscriptions l hU.1 hl
      have e1 : toggleSubscription castObjectId ctx channelId s =
          (.ok ⟨200, 200, none, "User Unsubscribed the channel Successfully"⟩,
            { s with subscriptions := s.subscriptions.erase l }) := by
        simp only [toggleSubscription, hcast, hch, hne1, if_false, hf, her]
      have hf2 := find?_erase_eq_none _ s.subscriptions l hone hl hpl
      have e2 : toggleSubscription castObjectId ctx' channelId
          { s with subscriptions := s.subscriptions.erase l } =
          (.ok ⟨200, 200, some ⟨s.nextId, ctx.user, c, ctx'.now⟩,
              "User Unsubscribed the channel Successfully"⟩,
            { s with subscriptions := s.subscriptions.erase l ++ [⟨s.nextId, ctx.user, c, ctx'.now⟩],
                     nextId := s.nextId + 1 }) := by
        simp only [toggleSubscription, hcast, hch, huser, hne1, if_false, hf2]
      rw [e1]
      refine ⟨⟨_, rfl⟩, ?_, ?_⟩
      · rw [e2]; exact ⟨_, rfl⟩
      · rw [e2]
        intro p
        have hperm := map_swap_perm
          (fun x : Subscription => (x.subscriber, x.channel)) s.subscriptions l
          ⟨s.nextId, ctx.user, c, ctx'.now⟩ hl (by simp at hpl; simp [hpl.1, hpl.2])
        exact hperm.mem_iff
  · intro hcast hex hU hone
    obtain ⟨x, hx⟩ := find?_id_isSome Video._id s.videos v hex
    cases hf : s.likes.find? (fun l => l.video == some v && l.likedBy == ctx.user) with
    | none =>
      have e1 : toggleVideoLike castObjectId ctx videoId s =
          (.ok ⟨200, 200, some ⟨s.nextId, some v, none, none, ctx.user, ctx.now⟩,
              "Video Liked Successfully"⟩,
            { s with likes := s.likes ++ [⟨s.nextId, some v, none, none, ctx.user, ctx.now⟩],
                     nextId := s.nextId + 1 }) := by
        simp [toggleVideoLike, hcast, hx, hf]
      have hf2 := find?_append_new (fun l : Like => l.video == some v && l.likedBy == ctx.user)
        s.likes ⟨s.nextId, some v, none, none, ctx.user, ctx.now⟩ hf (by simp)
      have he2 := eraseP_append_new Like._id s.likes s.nextId hU.2
        ⟨s.nextId, some v, none, none, ctx.user, ctx.now⟩ rfl
      have e2 : toggleVideoLike castObjectId ctx' videoId
          { s with likes := s.likes ++ [⟨s.nextId, some v, none, none, ctx.user, ctx.now⟩],
                   nextId := s.nextId + 1 } =
          (.ok ⟨200, 200, none, "Video unliked Successfully"⟩,
            { s with nextId := s.nextId + 1 }) := by
        simp only [toggleVideoLike, hcast, hx, huser, hf2, he2]
      rw [e1]
      refine ⟨⟨_, rfl⟩, ?_, ?_⟩
      · rw [e2]; exact ⟨_, rfl⟩
      · rw [e2]; intro p; rfl
    | some l =>
      have hl : l ∈ s.likes := List.mem_of_find?_eq_some hf
      have hpl0 := List.find?_some hf
      have hpl : (l.video == some v && l.likedBy == ctx.user) = true := hpl0
      have her := eraseP_key_eq_erase Like._id s.likes l hU.1 hl
      have e1 : toggleVideoLike castObjectId ctx videoId s =
          (.ok ⟨200, 200, none, "Video unliked Successfully"⟩,
            { s with likes := s.likes.erase l }) := by
        simp only [toggleVideoLike, hcast, hx, hf, her]
      have hf2 := find?_erase_eq_none _ s.likes l hone hl hpl
      have e2 : toggleVideoLike castObjectId ctx' videoId { s with likes := s.likes.erase l } =
          (.ok ⟨200, 200, some ⟨s.nextId, some v, none, none, ctx.user, ctx'.now⟩,
              "Video Liked Successfully"⟩,
            { s with likes := s.likes.erase l ++
                       [⟨s.nextId, some v, none, none, ctx.user, ctx'.now⟩],
                     nextId := s.nextId + 1 }) := by
        simp only [toggleVideoLike, hcast, hx, huser, hf2]
      rw [e1]
      refine ⟨⟨_, rfl⟩, ?_, ?_⟩
      · rw [e2]; exact ⟨_, rfl⟩
      · rw [e2]
        intro p
        have hperm := filterMap_swap_perm
          (fun l : Like => l.video.map (fun w => (l.likedBy, w))) s.likes l
          ⟨s.nextId, some v, none, none, ctx.user, ctx'.now⟩ hl
          (by simp at hpl; simp [hpl.1, hpl.2])
        exact hperm.mem_iff

/-- Two toggles by user 2 on channel 1 and on video 5 of the example store. -/
theorem toggle_twice_restores_pairs_witness :
    ((∃ a, (toggleSubscription hexObjectId { user := 2 } id1 demoStore).1 = .ok a) ∧
      (∃ b, (toggleSubscription hexObjectId { user := 2, now := 1 } id1
          (toggleSubscription hexObjectId { user := 2 } id1 demoStore).2).1 = .ok b) ∧
      ∀ p, p ∈ subscriptionPairs (toggleSubscription hexObjectId { user := 2, now := 1 } id1
          (toggleSubscription hexObjectId { user := 2 } id1 demoStore).2).2 ↔
        p ∈ subscriptionPairs demoStore) ∧
    ((∃ a, (toggleVideoLike hexObjectId { user := 2 } id5 demoStore).1 = .ok a) ∧
      (∃ b, (toggleVideoLike hexObjectId { user := 2, now := 1 } id5
          (toggleVideoLike hexObjectId { user := 2 } id5 demoStore).2).1 = .ok b) ∧
      ∀ p, p ∈ videoLikePairs (toggleVideoLike hexObjectId { user := 2, now := 1 } id5
          (toggleVideoLike hexObjectId { user := 2 } id5 demoStore).2).2 ↔
        p ∈ videoLikePairs demoStore) :=
  have h := toggle_twice_restores_pairs hexObjectId { user := 2 } { user := 2, now := 1 }
    demoStore id1 id5 1 5 rfl
  ⟨h.1 (by decide) (by decide) (by decide) (by decide) (by decide),
    h.2 (by decide) (by decide) (by decide) (by decide)⟩

/-! ## Tweets of a user -/

/-- C1 at the request `page = 3`, `limit = 1` for a user with four tweets: the
window of the claim is the single tweet 11, while `getUserTweets`, which passes
`skip` to `.limit`, replies with the two tweets 11 and 10. -/
theorem getUserTweets_returns_skip_many :
    ((tweetsNewestFirst tweetStore 1).drop ((3 - 1) * 1)).take 1 = [⟨11, "two", 1, 200⟩] ∧
      getUserTweets hexObjectId id1 (some 3) (some 1) tweetStore =
        (.ok ⟨200, 200,
            .page [⟨11, "two", some ⟨1, "ada", ""⟩⟩, ⟨10, "one", some ⟨1, "ada", ""⟩⟩] 4,
            "All the user's tweet fetched Successfully"⟩, tweetStore) := by
  exact ⟨rfl, rfl⟩

/-! ## Ownership checks -/

/-- C4, as stated, fails for a request without content: `updateComment` and
`updateTweet` by a user who is not the owner reply 400, not 403. -/
theorem update_without_content_counterexample :
    updateComment hexObjectId { user := 2 } id6 none demoStore =
        (.error (.apiError 400 "Comment's content is required"), demoStore) ∧
      updateTweet hexObjectId { user := 2 } id7 (some "") demoStore =
        (.error (.apiError 400 "Tweet must contain content"), demoStore) := by
  exact ⟨rfl, rfl⟩

/-- C4, amended. When the comment (resp. tweet) the id resolves to is not owned
by the requesting user, `deleteComment` (resp. `deleteTweet`) fails with 403,
`updateComment` (resp. `updateTweet`) fails with 403 if the body carries a
non-empty content and with 400 if the content is missing or empty, and in every
case the store is left as it was. -/
theorem nonowner_comment_tweet_rejected (castObjectId : String → Option ObjectId) (ctx : Ctx)
    (s : Store) (commentId tweetId : String) (cid tid : ObjectId) (comment : Comment)
    (tweet : Tweet) (content : Option String) :
    (castObjectId commentId = some cid →
      s.comments.find? (fun c => c._id == cid) = some comment → comment.owner ≠ ctx.user →
      deleteComment castObjectId ctx commentId s = (.error (.apiError 403 "Not allowed"), s) ∧
      (truthy content = true →
        updateComment castObjectId ctx commentId content s =
          (.error (.apiError 403 "Not allowed"), s)) ∧
      (truthy content = false →
        updateComment castObjectId ctx commentId content s =
          (.error (.apiError 400 "Comment's content is required"), s))) ∧
    (castObjectId tweetId = some tid →
      s.tweets.find? (fun t => t._id == tid) = some tweet → tweet.owner ≠ ctx.user →
      deleteTweet castObjectId ctx tweetId s = (.error (.apiError 403 "Not Allowed!"), s) ∧
      (truthy content = true →
        updateTweet castObjectId ctx tweetId content s =
          (.error (.apiError 403 "Not allowed"), s)) ∧
      (truthy content = false →
        updateTweet castObjectId ctx tweetId content s =
          (.error (.apiError 400 "Tweet must contain content"), s))) := by
  refine ⟨fun hcast hfind hne => ⟨?_, fun ht => ?_, fun hf => ?_⟩,
    fun hcast hfind hne => ⟨?_, fun ht => ?_, fun hf => ?_⟩⟩
  · simp [deleteComment, hcast, hfind, hne]
  · simp [updateComment, hcast, hfind, hne, ht]
  · simp [updateComment, hcast, hf]
  · simp [deleteTweet, hcast, hfind, hne]
  · simp [updateTweet, hcast, hfind, hne, ht]
  · simp [updateTweet, hcast, hf]

/-- User 2 acting on the comment and the tweet of user 1 in the example store. -/
theorem nonowner_comment_tweet_rejected_witness :
    (deleteComment hexObjectId { user := 2 } id6 demoStore =
        (.error (.apiError 403 "Not allowed"), demoStore) ∧
      updateComment hexObjectId { user := 2 } id6 (some "edited") demoStore =
        (.error (.apiError 403 "Not allowed"), demoStore)) ∧
    (deleteTweet hexObjectId { user := 2 } id7 demoStore =
        (.error (.apiError 403 "Not Allowed!"), demoStore) ∧
      updateTweet hexObjectId { user := 2 } id7 (some "edited") demoStore =
        (.error (.apiError 403 "Not allowed"), demoStore)) :=
  have h := nonowner_comment_tweet_rejected hexObjectId { user := 2 } demoStore id6 id7 6 7
    ⟨6, "nice", 5, 1, 0⟩ ⟨7, "hello", 1, 0⟩ (some "edited")
  have hc := h.1 (by decide) (by decide) (by decide)
  have ht := h.2 (by decide) (by decide) (by decide)
  ⟨⟨hc.1, hc.2.1 (by decide)⟩, ⟨ht.1, ht.2.1 (by decide)⟩⟩

/-- C5 at a request by user 2 on the playlist 3 owned by user 1: `deletePlaylist`
and `updatePlaylist` do not look at the requesting user; they reply 200, the
first removes the playlist and the second rewrites its name and description. -/
theorem playlist_changed_by_any_user :
    deletePlaylist hexObjectId id3 playlistStore =
        (.ok ⟨200, 200, none, "Playlist is deleted Successfully"⟩,
          { playlistStore with playlists := [] }) ∧
      updatePlaylist hexObjectId id3 (some "taken") (some "over") playlistStore =
        (.ok ⟨200, 200, some ⟨3, "taken", "over", [5], 1, 0⟩, "Playlist update Successfully"⟩,
          { playlistStore with playlists := [⟨3, "taken", "over", [5], 1, 0⟩] }) := by
  exact ⟨rfl, rfl⟩

/-- C6, as stated, fails for `updateVideoDetails`: a request by user 2 on the
video 5 of user 1 is answered with status 500, both when the payload lacks a
title (the payload is checked before the owner) and when it is complete (the
403 thrown in the `try` block is caught and thrown again as 500). -/
theorem updateVideoDetails_nonowner_counterexample :
    updateVideoDetails hexObjectId { user := 2 } id5 none (some "d") (some "/tmp/t.png")
          demoStore =
        (.error (.apiError 500 "Title and description is required!"), demoStore) ∧
      updateVideoDetails hexObjectId { user := 2 } id5 (some "t") (some "d") (some "/tmp/t.png")
          demoStore =
        (.error (.apiError 500 "Not Allowed!"), demoStore) := by
  exact ⟨rfl, rfl⟩

/-- C6, amended. When the video the id resolves to is not owned by the requesting
user, `deleteVideo` and `togglePublishedStatus` fail with 403, and
`updateVideoDetails` fails, for every payload, leaving the store as it was. -/
theorem nonowner_video_rejected (castObjectId : String → Option ObjectId) (ctx : Ctx)
    (s : Store) (id : String) (vid : ObjectId) (video : Video)
    (title description filePath : Option String)
    (hcast : castObjectId id = some vid)
    (hfind : s.videos.find? (fun v => v._id == vid) = some video)
    (hne : video.owner ≠ ctx.user) :
    (deleteVideo castObjectId ctx id s).1 = .error (.apiError 403 "Not Allowed!") ∧
      togglePublishedStatus castObjectId ctx id s =
        (.error (.apiError 403 "Not Allowed!"), s) ∧
      ∃ e, updateVideoDetails castObjectId ctx id title description filePath s =
        (.error e, s) := by
  refine ⟨?_, ?_, ?_⟩
  · simp [deleteVideo, hcast, hfind, hne]
  · simp [togglePublishedStatus, hcast, hfind, hne]
  · by_cases h1 : (truthy title && truthy description) = true
    · by_cases h2 : truthy filePath = true
      · exact ⟨_, by simp [updateVideoDetails, updateVideoDetailsTry, hcast, hfind, hne, h1, h2]; rfl⟩
      · exact ⟨_, by simp [updateVideoDetails, updateVideoDetailsTry, hcast, h1, h2]; rfl⟩
    · exact ⟨_, by simp [updateVideoDetails, updateVideoDetailsTry, hcast, h1]; rfl⟩

/-- User 2 acting on the video of user 1 in the example store. -/
theorem nonowner_video_rejected_witness :
    (deleteVideo hexObjectId { user := 2 } id5 demoStore).1 =
        .error (.apiError 403 "Not Allowed!") ∧
      togglePublishedStatus hexObjectId { user := 2 } id5 demoStore =
        (.error (.apiError 403 "Not Allowed!"), demoStore) ∧
      ∃ e, updateVideoDetails hexObjectId { user := 2 } id5 (some "t") (some "d")
        (some "/tmp/t.png") demoStore = (.error e, demoStore) :=
  nonowner_video_rejected hexObjectId { user := 2 } demoStore id5 5
    { _id := 5, title := "cats", description := "a cat video",
      videoFile := "http://res.cloudinary.com/demo/video/upload/v1/clip.mp4",
      thumbnail := "http://res.cloudinary.com/demo/image/upload/v1/thumb.png", owner := 1 }
    (some "t") (some "d") (some "/tmp/t.png") (by decide) (by decide) (by decide)

/-- C7 at a request by user 2 on the video 5 of user 1: `deleteVideo` replies 403
and keeps the video record, but by then it has asked the object storage to
destroy the media file and the thumbnail of the video. -/
theorem deleteVideo_destroys_before_owner_check :
    deleteVideo hexObjectId { user := 2 } id5 demoStore =
      (.error (.apiError 403 "Not Allowed!"),
        { demoStore with
          cloudLog := [.destroy "clip" "video", .destroy "thumb" "image"] }) := by
  rfl

/-! ## Playlists -/

/-- C8. With a non-empty name and description, `createPlaylist` succeeds exactly
when some supplied id is well-formed and resolves to a stored video; on success
the new playlist, appended to the collection, lists exactly the ids that
qualify; when none qualifies the reply is the validation error 400 and the store
is left as it was. -/
theorem createPlaylist_keeps_qualifying_videos (castObjectId : String → Option ObjectId)
    (ctx : Ctx) (s : Store) (name description : Option String) (videos : Option (List String))
    (hname : truthy name = true) (hdescription : truthy description = true) :
    ((∃ r, (createPlaylist castObjectId ctx name description videos s).1 = .ok r) ↔
        ∃ v, Qualifies castObjectId s (videos.getD []) v) ∧
      (∀ r, (createPlaylist castObjectId ctx name description videos s).1 = .ok r →
        ∃ p, r.data = some p ∧ r.status = 200 ∧
          (∀ v, v ∈ p.videos ↔ Qualifies castObjectId s (videos.getD []) v) ∧
          (createPlaylist castObjectId ctx name description videos s).2.playlists =
            s.playlists ++ [p]) ∧
      ((¬ ∃ v, Qualifies castObjectId s (videos.getD []) v) →
        createPlaylist castObjectId ctx name description videos s =
          (.error (.apiError 400 "Playlist must consist of at least one video"), s)) := by
  have hmem := mem_existingVideos castObjectId s (videos.getD [])
  by_cases hq : ∃ v, Qualifies castObjectId s (videos.getD []) v
  · have hlen : ¬ (((s.videos.filter (fun x =>
          ((videos.getD []).filter (fun id => isValidObjectId castObjectId id)).any
            (fun id => castObjectId id == some x._id))).map (fun x => x._id)).dedup).length < 1 := by
      rw [length_lt_one_iff]
      obtain ⟨v, hv⟩ := hq
      exact fun h => h v ((hmem v).2 hv)
    refine ⟨⟨fun _ => hq, fun _ => ?_⟩, ?_, fun h => absurd hq h⟩
    · simp only [createPlaylist, hname, hdescription, hlen]
      exact ⟨_, rfl⟩
    · intro r hr
      simp only [createPlaylist, hname, hdescription, hlen] at hr ⊢
      simp only [Bool.and_self, Bool.not_true, Bool.false_eq_true, if_false, Except.ok.injEq] at hr ⊢
      subst hr
      exact ⟨_, rfl, rfl, hmem, rfl⟩
  · have hlen : (((s.videos.filter (fun x =>
          ((videos.getD []).filter (fun id => isValidObjectId castObjectId id)).any
            (fun id => castObjectId id == some x._id))).map (fun x => x._id)).dedup).length < 1 := by
      rw [length_lt_one_iff]
      exact fun v hv => hq ⟨v, (hmem v).1 hv⟩
    have herr : createPlaylist castObjectId ctx name description videos s =
        (.error (.apiError 400 "Playlist must consist of at least one video"), s) := by
      simp only [createPlaylist, hname, hdescription, hlen]
      rfl
    refine ⟨⟨fun h => ?_, fun h => absurd h hq⟩, fun r hr => ?_, fun _ => herr⟩
    · obtain ⟨r, hr⟩ := h
      rw [herr] at hr
      cases hr
    · rw [herr] at hr
      cases hr

/-- A request that repeats one stored video and adds a malformed and an unknown id. -/
theorem createPlaylist_keeps_qualifying_videos_witness :
    ((∃ r, (createPlaylist hexObjectId { user := 2 } (some "mix") (some "my mix")
          (some [id5, id5, "zz", id3]) demoStore).1 = .ok r) ↔
        ∃ v, Qualifies hexObjectId demoStore ((some [id5, id5, "zz", id3]).getD []) v) ∧
      (∀ r, (createPlaylist hexObjectId { user := 2 } (some "mix") (some "my mix")
          (some [id5, id5, "zz", id3]) demoStore).1 = .ok r →
        ∃ p, r.data = some p ∧ r.status = 200 ∧
          (∀ v, v ∈ p.videos ↔
            Qualifies hexObjectId demoStore ((some [id5, id5, "zz", id3]).getD []) v) ∧
          (createPlaylist hexObjectId { user := 2 } (some "mix") (some "my mix")
            (some [id5, id5, "zz", id3]) demoStore).2.playlists = demoStore.playlists ++ [p]) ∧
      ((¬ ∃ v, Qualifies hexObjectId demoStore ((some [id5, id5, "zz", id3]).getD []) v) →
        createPlaylist hexObjectId { user := 2 } (some "mix") (some "my mix")
            (some [id5, id5, "zz", id3]) demoStore =
          (.error (.apiError 400 "Playlist must consist of at least one video"), demoStore)) :=
  createPlaylist_keeps_qualifying_videos hexObjectId { user := 2 } demoStore (some "mix")
    (some "my mix") (some [id5, id5, "zz", id3]) (by decide) (by decide)

/-- C9. A playlist made by `createPlaylist` lists no video twice, whatever the
request repeats; if no playlist of the store lists a video twice, the same holds
after `createPlaylist`, `addVideoToPlaylist`, `removeVideoFromPlaylist` and
`updatePlaylist`; and `addVideoToPlaylist` for a video that the playlist already
lists fails and leaves the store as it was. -/
theorem playlist_videos_stay_duplicate_free (castObjectId : String → Option ObjectId)
    (ctx : Ctx) (s : Store) (name description : Option String) (videos : Option (List String))
    (playlistId videoId : String) :
    (∀ r p, (createPlaylist castObjectId ctx name description videos s).1 = .ok r →
        r.data = some p →
        p.videos.Nodup ∧
          p ∈ (createPlaylist castObjectId ctx name description videos s).2.playlists) ∧
      (PlaylistsNodup s →
        PlaylistsNodup (createPlaylist castObjectId ctx name description videos s).2 ∧
        PlaylistsNodup (addVideoToPlaylist castObjectId ctx playlistId videoId s).2 ∧
        PlaylistsNodup (removeVideoFromPlaylist castObjectId ctx playlistId videoId s).2 ∧
        PlaylistsNodup (updatePlaylist castObjectId playlistId name description s).2) ∧
      (∀ pid vid p, castObjectId playlistId = some pid → castObjectId videoId = some vid →
        s.playlists.find? (fun q => q._id == pid) = some p → vid ∈ p.videos →
        ∃ e, addVideoToPlaylist castObjectId ctx playlistId videoId s = (.error e, s)) := by
  have hcreate := createPlaylist_playlists castObjectId ctx s name description videos
  refine ⟨fun r p hr hp => ?_, fun h => ⟨?_, ?_, ?_, ?_⟩, fun pid vid p hpid hvid hfind hmem => ?_⟩
  · rcases hcreate with hsame | ⟨q, hq, hok, happ⟩
    · exfalso
      unfold createPlaylist at hr
      simp only [] at hr
      split at hr
      · cases hr
      · split at hr
        · cases hr
        · rename_i h1 h2
          unfold createPlaylist at hsame
          simp only [h1, h2, if_false] at hsame
          have := congrArg List.length hsame
          simp at this
    · rw [hok] at hr
      cases hr
      cases hp
      exact ⟨hq, by rw [happ]; simp⟩
  · rcases hcreate with hsame | ⟨q, hq, _, happ⟩
    · intro p hp
      rw [hsame] at hp
      exact h p hp
    · intro p hp
      rw [happ] at hp
      rcases List.mem_append.1 hp with hp | hp
      · exact h p hp
      · rw [List.mem_singleton.1 hp]
        exact hq
  · exact addVideoToPlaylist_nodup castObjectId ctx s playlistId videoId h
  · exact removeVideoFromPlaylist_nodup castObjectId ctx s playlistId videoId h
  · exact updatePlaylist_nodup castObjectId s playlistId name description h
  · have hany : p.videos.any (fun v => some vid == some v) = true := by
      simp only [List.any_eq_true]
      exact ⟨vid, hmem, by simp⟩
    unfold addVideoToPlaylist
    simp only [hpid, hvid, hfind, hany]
    repeat' split
    all_goals first
      | exact ⟨_, rfl⟩
      | simp_all

/-- User 1 adding video 5 again to the playlist that already lists it. -/
theorem playlist_videos_stay_duplicate_free_witness :
    (PlaylistsNodup (createPlaylist hexObjectId { user := 1 } (some "mix") (some "my mix")
          (some [id5, id5]) playlistStore).2 ∧
        PlaylistsNodup (addVideoToPlaylist hexObjectId { user := 1 } id3 id5 playlistStore).2 ∧
        PlaylistsNodup (removeVideoFromPlaylist hexObjectId { user := 1 } id3 id5 playlistStore).2 ∧
        PlaylistsNodup (updatePlaylist hexObjectId id3 (some "mix") (some "my mix")
          playlistStore).2) ∧
      ∃ e, addVideoToPlaylist hexObjectId { user := 1 } id3 id5 playlistStore =
        (.error e, playlistStore) :=
  have h := playlist_videos_stay_duplicate_free hexObjectId { user := 1 } playlistStore
    (some "mix") (some "my mix") (some [id5, id5]) id3 id5
  ⟨h.2.1 (by unfold PlaylistsNodup; decide),
    h.2.2 3 5 ⟨3, "mix", "my mix", [5], 1, 0⟩ (by decide) (by decide) (by decide) (by decide)⟩

/-! ## Self-subscription -/

/-- C10. `toggleSubscription` with a channel id that is the requesting user's
own id replies with an error and leaves the store as it was; hence, from a store
without a record whose subscriber is its channel, no run of `toggleSubscription`
requests reaches a store with such a record. -/
theorem toggleSubscription_never_self (castObjectId : String → Option ObjectId) (ctx : Ctx)
    (s : Store) (channelId : String) :
    (castObjectId channelId = some ctx.user →
        ∃ e, toggleSubscription castObjectId ctx channelId s = (.error e, s)) ∧
      (∀ reqs : List (Ctx × String), NoSelfSubscription s →
        NoSelfSubscription (toggleSubscriptionRun castObjectId reqs s)) := by
  refine ⟨fun hcast => ?_, fun reqs h => toggleSubscriptionRun_noSelf castObjectId reqs s h⟩
  cases hch : s.users.find? (fun u => u._id == ctx.user) with
  | none =>
    exact ⟨.apiError 404 "Channel not found", by simp [toggleSubscription, hcast, hch]⟩
  | some channel =>
    have hid : channel._id = ctx.user := by simpa using List.find?_some hch
    exact ⟨.apiError 403 "Not allowed", by simp [toggleSubscription, hcast, hch, hid]⟩

/-- User 2 subscribing to themselves, and a run of three requests, on the example store. -/
theorem toggleSubscription_never_self_witness :
    (∃ e, toggleSubscription hexObjectId { user := 2 } id2 demoStore = (.error e, demoStore)) ∧
      NoSelfSubscription (toggleSubscriptionRun hexObjectId
        [({ user := 2 }, id1), ({ user := 2 }, id2), ({ user := 1 }, id2)] demoStore) :=
  have h := toggleSubscription_never_self hexObjectId { user := 2 } demoStore id2
  ⟨h.1 (by decide), h.2 _ (by unfold NoSelfSubscription; decide)⟩

/-! ## Pages beyond the last -/

/-- C11 at requests for a page beyond the last: video 5 has one like, and
`getVideoLikes` with `page = 2`, `limit = 1` replies with the bare `[]`, without
the total 1; the store has one published video, and `getAllVideos` with
`page = 2`, `limit = 1` replies with `totalDocs` 0. -/
theorem empty_page_drops_totals :
    (likedStore.likes.filter (fun l => l.video == some 5)).length = 1 ∧
      getVideoLikes hexObjectId id5 (some 2) (some 1) likedStore =
        (.ok ⟨200, 200, .empty, "There is no likes of the video"⟩, likedStore) ∧
      (demoStore.videos.filter (fun v => v.isPublished)).length = 1 ∧
      getAllVideos hexObjectId containsIgnoreCase stableStore
          { page := some 2, limit := some 1, sortBy := some "views", sortType := some "asc" }
          demoStore =
        (.ok ⟨200, 200, { docs := [], totalDocs := 0 }, "No videos found!"⟩, demoStore) := by
  exact ⟨rfl, rfl, rfl, rfl⟩

/-- C13 at the request `query = "cat"`, `sortBy = "views"`, `sortType = "desc"`,
`limit = 2` over five published videos of which two contain "cat": page 1 holds
the two videos, most viewed first, with `totalDocs` 2; page 2, whose window is
empty, is answered with `totalDocs` 0 although two videos match. -/
theorem getAllVideos_total_zero_beyond_last :
    (catStore.videos.filter (fun v => v.isPublished &&
        (containsIgnoreCase "cat" v.title || containsIgnoreCase "cat" v.description))).map
        (fun v => v._id) = [30, 32] ∧
      ((getAllVideos hexObjectId containsIgnoreCase stableStore
          { page := some 1, limit := some 2, query := some "cat", sortBy := some "views",
            sortType := some "desc" } catStore).1.toOption.map
        (fun r => (r.data.docs.map (fun d => d._id), r.data.totalDocs))) = some ([32, 30], 2) ∧
      getAllVideos hexObjectId containsIgnoreCase stableStore
          { page := some 2, limit := some 2, query := some "cat", sortBy := some "views",
            sortType := some "desc" } catStore =
        (.ok ⟨200, 200, { docs := [], totalDocs := 0 }, "No videos found!"⟩, catStore) := by
  exact ⟨rfl, rfl, rfl⟩

/-! ## Playlists of a user -/

/-- C12, as stated, fails: user 2 exists and owns no playlist, the id is
well-formed, and `getUserPlaylist` replies with the error 400. -/
theorem getUserPlaylist_no_playlist_counterexample :
    hexObjectId id2 = some 2 ∧
      (playlistStore.playlists.filter (fun p => p.owner == 2)).length = 0 ∧
      getUserPlaylist hexObjectId id2 playlistStore =
        (.error (.apiError 400 "No playlist exist"), playlistStore) := by
  exact ⟨by decide, rfl, rfl⟩

/-- C12, amended. `getUserPlaylist` fails with 400 both for a malformed user id
and for a well-formed id whose user owns no playlist; for a well-formed id whose
user owns a playlist it succeeds with one row for each playlist of the user and
their number as total. The store is never changed. -/
theorem getUserPlaylist_outcomes (castObjectId : String → Option ObjectId) (userId : String)
    (s : Store) :
    (castObjectId userId = none →
        getUserPlaylist castObjectId userId s =
          (.error (.apiError 400 "Invalid user's id"), s)) ∧
      (∀ uid, castObjectId userId = some uid → (∀ p ∈ s.playlists, p.owner ≠ uid) →
        getUserPlaylist castObjectId userId s =
          (.error (.apiError 400 "No playlist exist"), s)) ∧
      (∀ uid, castObjectId userId = some uid → (∃ p ∈ s.playlists, p.owner = uid) →
        getUserPlaylist castObjectId userId s =
          (.ok ⟨200, 200,
              ⟨(s.playlists.filter (fun p => p.owner == uid)).map (userPlaylistRow s),
                (s.playlists.filter (fun p => p.owner == uid)).length⟩,
              "All playlists of the user fetched Successfully"⟩, s)) := by
  refine ⟨fun hcast => ?_, fun uid hcast hnone => ?_, fun uid hcast hsome => ?_⟩
  · simp [getUserPlaylist, hcast]
  · have hnil : s.playlists.filter (fun p => p.owner == uid) = [] := by
      apply List.filter_eq_nil_iff.2
      intro p hp
      simpa using hnone p hp
    simp [getUserPlaylist, hcast, hnil]
  · obtain ⟨p, hp, hown⟩ := hsome
    have hmem : p ∈ s.playlists.filter (fun p => p.owner == uid) := by
      simp [List.mem_filter, hp, hown]
    have hpos : (s.playlists.filter (fun p => p.owner == uid)).length ≠ 0 := by
      intro h0
      rw [List.length_eq_zero] at h0
      rw [h0] at hmem
      cases hmem
    have hlt : ¬ (s.playlists.filter (fun p => p.owner == uid)).length < 1 := by omega
    simp only [getUserPlaylist, hcast, hpos, if_false, List.length_map, hlt]

/-- The three outcomes on the example store: a malformed id, user 2 without a
playlist, user 1 with the playlist 3. -/
theorem getUserPlaylist_outcomes_witness :
    getUserPlaylist hexObjectId "zz" playlistStore =
        (.error (.apiError 400 "Invalid user's id"), playlistStore) ∧
      getUserPlaylist hexObjectId id2 playlistStore =
        (.error (.apiError 400 "No playlist exist"), playlistStore) ∧
      getUserPlaylist hexObjectId id1 playlistStore =
        (.ok ⟨200, 200,
            ⟨(playlistStore.playlists.filter (fun p => p.owner == 1)).map
                (userPlaylistRow playlistStore),
              (playlistStore.playlists.filter (fun p => p.owner == 1)).length⟩,
            "All playlists of the user fetched Successfully"⟩, playlistStore) :=
  ⟨(getUserPlaylist_outcomes hexObjectId "zz" playlistStore).1 (by decide),
    (getUserPlaylist_outcomes hexObjectId id2 playlistStore).2.1 2 (by decide) (by decide),
    (getUserPlaylist_outcomes hexObjectId id1 playlistStore).2.2 1 (by decide) (by decide)⟩

/-! ## Channel profile -/

/-- C14 at the profile of "ada" requested by user 2, who is subscribed to that
channel: the flag is computed from the field `subscribed`, which no subscription
has, and `isSubscribed` is false. -/
theorem isSubscribed_false_for_subscriber :
    (2, 1) ∈ subscriptionPairs subscribedStore ∧
      getUserChannelProfile { user := 2 } (some "ada") subscribedStore =
        (.ok ⟨200, 200,
            some { _id := 1, username := "ada", fullname := "", email := "",
                   subscriberCount := 1, subscribedToCount := 0, isSubscribed := false,
                   avatar := "", coverImage := "" },
            "Profile fetched successfully!"⟩, subscribedStore) := by
  exact ⟨by decide, rfl⟩

/-- C15 at the profile of "bob", who is subscribed to one channel: the second
join compares the field `subscribers`, which no subscription has, and
`subscribedToCount` is 0. -/
theorem subscribedToCount_zero_for_subscriber :
    (subscribedStore.subscriptions.filter (fun x => x.subscriber == 2)).length = 1 ∧
      getUserChannelProfile { user := 1 } (some "bob") subscribedStore =
        (.ok ⟨200, 200,
            some { _id := 2, username := "bob", fullname := "", email := "",
                   subscriberCount := 0, subscribedToCount := 0, isSubscribed := false,
                   avatar := "", coverImage := "" },
            "Profile fetched successfully!"⟩, subscribedStore) := by
  exact ⟨rfl, rfl⟩

/-! ## Account updates -/

/-- C16 at requests of an account that stores a password hash and a refresh
token: the document in the reply of `updateUserDetails` and of `updateUserAvatar`
carries the refresh token, and the one of `updateUserCoverImage` carries both the
password hash and the refresh token. -/
theorem update_replies_carry_credentials :
    ((updateUserDetails { user := 1 } (some "Ada L") (some "ada@example.org")
          accountStore).1.toOption.map (fun r => r.data.map (fun d => d.refreshToken))) =
        some (some (some "refresh-token")) ∧
      ((updateUserAvatar uploadingCtx (some "/tmp/cover.png")
          accountStore).1.toOption.map (fun r => r.data.map (fun d => d.refreshToken))) =
        some (some (some "refresh-token")) ∧
      ((updateUserCoverImage uploadingCtx (some "/tmp/cover.png")
          accountStore).1.toOption.map
            (fun r => r.data.map (fun d => (d.password, d.refreshToken)))) =
        some (some (some "$2b$10$hash", some "refresh-token")) := by
  exact ⟨rfl, rfl, rfl⟩

/-! ## Identifiers that are not well-formed -/

/-- C17 at the id "zz": `addVideoToPlaylist` and `removeVideoFromPlaylist` do not
test their ids; a malformed id reaches `findById`, which throws the cast error,
or, as the video id of `removeVideoFromPlaylist`, ends in the 404 of a video that
the playlist does not list. -/
theorem playlist_edit_accepts_malformed_ids :
    hexObjectId "zz" = none ∧
      addVideoToPlaylist hexObjectId { user := 1 } id3 "zz" playlistStore =
        (.error .castError, playlistStore) ∧
      addVideoToPlaylist hexObjectId { user := 1 } "zz" id5 playlistStore =
        (.error .castError, playlistStore) ∧
      removeVideoFromPlaylist hexObjectId { user := 1 } "zz" id5 playlistStore =
        (.error .castError, playlistStore) ∧
      removeVideoFromPlaylist hexObjectId { user := 1 } id3 "zz" playlistStore =
        (.error (.apiError 404 "Video not present in the playlist"), playlistStore) := by
  exact ⟨by decide, rfl, rfl, rfl, rfl⟩

/-! ## Page, limit and sort direction -/

/-- C18 at the request `limit = 0` for the videos of channel 1:
`getChannelVideos` tests the page only, and replies 200 with the page that the
plugin builds with its default limit, where `getAllVideos` replies 400. -/
theorem getChannelVideos_accepts_limit_zero :
    ((getChannelVideos hexObjectId stableStore { channelId := some id1, limit := some 0 }
        demoStore).1.toOption.map
        (fun r => (r.status, r.data.docs.map (fun d => d._id), r.data.totalDocs))) =
        some (200, [5], 1) ∧
      getAllVideos hexObjectId containsIgnoreCase stableStore
          { limit := some 0, sortType := some "asc" } demoStore =
        (.error (.apiError 400 "Limit must be 1 or higher"), demoStore) := by
  exact ⟨rfl, rfl⟩

/-- C19, as stated, fails for `getChannelVideos`, which does not read the sort
direction: a request with `sortType = "sideways"`, and one without a sort
direction, are answered with 200. -/
theorem getChannelVideos_sortType_counterexample :
    ((getChannelVideos hexObjectId stableStore
        { channelId := some id1, sortBy := some "views", sortType := some "sideways" }
        demoStore).1.toOption.map (fun r => r.status)) = some 200 ∧
      ((getChannelVideos hexObjectId stableStore { channelId := some id1, sortBy := some "views" }
        demoStore).1.toOption.map (fun r => r.status)) = some 200 := by
  exact ⟨rfl, rfl⟩

/-- C19, amended. With its other parameters valid, `getAllVideos` fails with a
validation error if and only if the sort direction is not exactly "asc" or
"desc", a missing one included, and the error is then the 400 of the sort
direction. `getChannelVideos` takes no sort direction: its reply is the same for
every `sortType` and the direction in its sort object is always 1. With a valid
page and channel id it succeeds when the store accepts that sort object, with
the rows of the page in ascending order of the key, and it fails with the
error of the store, which is no validation error, when the store rejects it. -/
theorem sortType_checked_by_getAllVideos (castObjectId : String → Option ObjectId)
    (regexTest : String → String → Bool) (sorter : StoreSort) (q : ListQuery) (s : Store)
    (hvalid : OtherParamsValid castObjectId q) :
    ((∃ message, (getAllVideos castObjectId regexTest sorter q s).1 =
          .error (.apiError 400 message)) ↔
        (q.sortType ≠ some "asc" ∧ q.sortType ≠ some "desc")) ∧
      ((q.sortType ≠ some "asc" ∧ q.sortType ≠ some "desc") →
        getAllVideos castObjectId regexTest sorter q s =
          (.error (.apiError 400 "SortType must be asc or desc"), s)) ∧
      (∀ t, getChannelVideos castObjectId sorter { q with sortType := t } s =
        getChannelVideos castObjectId sorter q s) ∧
      (∀ t, sortSpecs (getChannelVideosPipeline { q with sortType := t }) =
        [sortObject (q.sortBy.getD "undefined") 1]) ∧
      ((q.channelId.bind castObjectId).isSome = true →
        (sorter.reject (sortObject (q.sortBy.getD "undefined") 1) = none →
          ∃ r, getChannelVideos castObjectId sorter q s = (.ok r, s)) ∧
        (∀ message, sorter.reject (sortObject (q.sortBy.getD "undefined") 1) = some message →
          getChannelVideos castObjectId sorter q s = (.error (.storeError message), s)) ∧
        (sorter.Sorts → q.sortBy ≠ some "__proto__" →
          ∀ r, getChannelVideos castObjectId sorter q s = (.ok r, s) →
            r.data.docs.Pairwise (fun a b =>
              (VideoRow.field (q.sortBy.getD "undefined") a).le
                (VideoRow.field (q.sortBy.getD "undefined") b) = true))) := by
  obtain ⟨hp, hl, hu, hq⟩ := hvalid
  have hp1 : ¬ q.page.getD 1 < 1 := by omega
  have hl1 : ¬ q.limit.getD 10 < 1 := by omega
  have hq1 : (truthy q.query && decide (jsLength (q.query.getD "") > 50)) = false := by
    by_cases h1 : truthy q.query = true
    · by_cases h2 : jsLength (q.query.getD "") > 50
      · exact absurd ⟨h1, h2⟩ hq
      · simp [h2]
    · simp [h1]
  have hu1 : ((truthy q.userId && decide ((jsTrim (q.userId.getD "").data).length > 0)) &&
      !isValidObjectId castObjectId (q.userId.getD "")) = false := by
    by_cases hw : (truthy q.userId && decide ((jsTrim (q.userId.getD "").data).length > 0)) = true
    · simp [hw, isValidObjectId, (hu hw).1]
    · simp [hw]
  have hu2 : ((truthy q.userId && decide ((jsTrim (q.userId.getD "").data).length > 0)) &&
      (castObjectId (String.mk (jsTrim (q.userId.getD "").data))).isNone) = false := by
    by_cases hw : (truthy q.userId && decide ((jsTrim (q.userId.getD "").data).length > 0)) = true
    · have h2 := (hu hw).2
      rw [Option.isSome_iff_exists] at h2
      obtain ⟨o, ho⟩ := h2
      simp [hw, ho]
    · simp [hw]
  have hbad : (q.sortType ≠ some "asc" ∧ q.sortType ≠ some "desc") →
      getAllVideos castObjectId regexTest sorter q s =
        (.error (.apiError 400 "SortType must be asc or desc"), s) := by
    intro hb
    simp only [getAllVideos, hp1, hl1, hq1, hu1, hu2, if_false, Bool.false_eq_true]
    simp [hb.1, hb.2]
  have hgood : (q.sortType = some "asc" ∨ q.sortType = some "desc") →
      (∃ r, getAllVideos castObjectId regexTest sorter q s = (.ok r, s)) ∨
        ∃ message, getAllVideos castObjectId regexTest sorter q s =
          (.error (.storeError message), s) := by
    intro hg
    have hst : (decide (q.sortType ≠ some "asc") && decide (q.sortType ≠ some "desc")) = false := by
      rcases hg with h | h <;> simp [h]
    simp only [getAllVideos, hp1, hl1, hq1, hu1, hu2, hst, if_false, Bool.false_eq_true]
    cases sorter.reject (sortObject (q.sortBy.getD "undefined")
        (if q.sortType = some "asc" then 1 else -1)) with
    | some message => exact Or.inr ⟨message, rfl⟩
    | none => exact Or.inl (ite_ok_exists _ _ _ s)
  refine ⟨⟨fun hfail => ?_, fun hb => ⟨_, by rw [hbad hb]⟩⟩, hbad, fun t => rfl, fun t => rfl,
    fun hc => ?_⟩
  · by_contra hnot
    have hg : q.sortType = some "asc" ∨ q.sortType = some "desc" := by
      by_cases h1 : q.sortType = some "asc"
      · exact Or.inl h1
      · by_cases h2 : q.sortType = some "desc"
        · exact Or.inr h2
        · exact absurd ⟨h1, h2⟩ hnot
    obtain ⟨m, hm⟩ := hfail
    rcases hgood hg with ⟨r, hr⟩ | ⟨m', hr⟩
    · rw [hr] at hm
      cases hm
    · rw [hr] at hm
      cases hm
  · rw [Option.isSome_iff_exists] at hc
    obtain ⟨c, hc⟩ := hc
    refine ⟨fun hacc => ?_, fun message hrej => ?_, fun hsorts hproto r hr => ?_⟩
    · simp only [getChannelVideos, hp1, hc, hacc, if_false]
      exact ite_ok_exists _ _ _ s
    · simp only [getChannelVideos, hp1, hc, hrej, if_false]
    · have hkey : sortObject (q.sortBy.getD "undefined") 1 = [(q.sortBy.getD "undefined", 1)] := by
        have hne : q.sortBy.getD "undefined" ≠ "__proto__" := by
          cases hsb : q.sortBy with
          | none => decide
          | some k =>
            intro e
            apply hproto
            rw [hsb]
            exact congrArg some e
        simp only [sortObject, hne, if_false]
      have hsorted := (hsorts VideoRow VideoRow.field (q.sortBy.getD "undefined") 1
        ((s.videos.filter (fun v => v.isPublished && v.owner == c)).map channelVideosRow)).2
      simp only [if_true] at hsorted
      simp only [getChannelVideos, hp1, hc, hkey, if_false] at hr
      cases hrej : sorter.reject [(q.sortBy.getD "undefined", 1)] with
      | some message =>
        rw [hrej] at hr
        cases hr
      | none =>
        rw [hrej] at hr
        simp only [] at hr
        split_ifs at hr with hlen
        · cases hr
          exact List.Pairwise.nil
        · cases hr
          simp only [aggregatePaginate]
          exact hsorted.sublist ((List.take_sublist _ _).trans (List.drop_sublist _ _))

/-- A request without a sort direction: `getAllVideos` replies 400 and
`getChannelVideos` succeeds on the example store, which accepts the key "views". -/
theorem sortType_checked_by_getAllVideos_witness :
    getAllVideos hexObjectId containsIgnoreCase stableStore undirectedQuery catStore =
        (.error (.apiError 400 "SortType must be asc or desc"), catStore) ∧
      ∃ r, getChannelVideos hexObjectId stableStore undirectedQuery catStore =
        (.ok r, catStore) :=
  have h := sortType_checked_by_getAllVideos hexObjectId containsIgnoreCase stableStore
    undirectedQuery catStore (by unfold OtherParamsValid; decide)
  ⟨h.2.1 (by decide), (h.2.2.2.2 (by decide)).1 rfl⟩

/-! ## Identifiers that resolve to nothing -/

/-- C20 at the well-formed id 3, which names no comment, tweet or video of the
store: `updateComment`, `deleteComment` and `updateTweet` throw an `apiError` with
status 500, `updateVideoDetails` reads `owner` of `null` and turns the resulting
`TypeError` into status 500, and `togglePublishedStatus` throws that `TypeError`;
none of them replies 404. -/
theorem missing_entity_not_reported_as_404 :
    hexObjectId id3 = some 3 ∧
      updateComment hexObjectId { user := 1 } id3 (some "edited") demoStore =
        (.error (.apiError 500 "Something went wrong while updating comment"), demoStore) ∧
      deleteComment hexObjectId { user := 1 } id3 demoStore =
        (.error (.apiError 500 "Something went wrong while updating comment"), demoStore) ∧
      updateTweet hexObjectId { user := 1 } id3 (some "edited") demoStore =
        (.error (.apiError 500 "Something went wrong while updating tweet"), demoStore) ∧
      updateVideoDetails hexObjectId { user := 1 } id3 (some "t") (some "d")
          (some "/tmp/t.png") demoStore =
        (.error (.apiError 500 nullOwnerMessage), demoStore) ∧
      togglePublishedStatus hexObjectId { user := 1 } id3 demoStore =
        (.error (.typeError nullOwnerMessage), demoStore) := by
  exact ⟨by decide, rfl, rfl, rfl, rfl, rfl⟩

/-! ## Publish flag -/

/-- C21. When the video the id resolves to is owned by the requesting user,
`togglePublishedStatus` succeeds, stores the video with `isPublished` negated and
every other field as it was, leaves the rest of the store as it was, and two
successive calls give back the original store. -/
theorem togglePublishedStatus_negates (castObjectId : String → Option ObjectId) (ctx : Ctx)
    (s : Store) (id : String) (vid : ObjectId) (video : Video)
    (hcast : castObjectId id = some vid)
    (hfind : s.videos.find? (fun v => v._id == vid) = some video)
    (hown : video.owner = ctx.user) :
    togglePublishedStatus castObjectId ctx id s =
        (.ok ⟨200, 200, some { video with isPublished := !video.isPublished },
            "Status is being toggled Successfully!"⟩,
          { s with
            videos := updateOne (fun v => v._id == vid)
                        (fun v => { v with isPublished := !v.isPublished }) s.videos }) ∧
      (togglePublishedStatus castObjectId ctx id s).2.videos.find? (fun v => v._id == vid) =
        some { video with isPublished := !video.isPublished } ∧
      (togglePublishedStatus castObjectId ctx id
        (togglePublishedStatus castObjectId ctx id s).2).2 = s := by
  have e1 := togglePublishedStatus_of_owner castObjectId ctx s id vid video hcast hfind hown
  have hfind1 := find?_updateOne (fun v : Video => v._id == vid)
    (fun v => { v with isPublished := !v.isPublished }) (fun _ h => h) s.videos
  rw [hfind] at hfind1
  refine ⟨e1, ?_, ?_⟩
  · rw [e1]
    exact hfind1
  · rw [e1]
    have e2 := togglePublishedStatus_of_owner castObjectId ctx
      { s with
        videos := updateOne (fun v => v._id == vid)
                    (fun v => { v with isPublished := !v.isPublished }) s.videos }
      id vid { video with isPublished := !video.isPublished } hcast hfind1 hown
    rw [e2]
    have hback : updateOne (fun v : Video => v._id == vid)
        (fun v => { v with isPublished := !v.isPublished })
        (updateOne (fun v => v._id == vid) (fun v => { v with isPublished := !v.isPublished })
          s.videos) = s.videos := by
      rw [updateOne_updateOne (fun v : Video => v._id == vid)
        (fun v => { v with isPublished := !v.isPublished })
        (fun v => { v with isPublished := !v.isPublished }) (fun _ h => h) s.videos]
      exact updateOne_eq_self _ _ (fun d => by cases d; simp) s.videos
    simp only [hback]

/-- The owner of video 5 unpublishing and publishing it again in the example store. -/
theorem togglePublishedStatus_negates_witness :
    (togglePublishedStatus hexObjectId { user := 1 } id5 demoStore).2.videos.find?
        (fun v => v._id == 5) =
        some { _id := 5, title := "cats", description := "a cat video",
               videoFile := "http://res.cloudinary.com/demo/video/upload/v1/clip.mp4",
               thumbnail := "http://res.cloudinary.com/demo/image/upload/v1/thumb.png",
               isPublished := false, owner := 1 } ∧
      (togglePublishedStatus hexObjectId { user := 1 } id5
        (togglePublishedStatus hexObjectId { user := 1 } id5 demoStore).2).2 = demoStore :=
  (togglePublishedStatus_negates hexObjectId { user := 1 } demoStore id5 5
    { _id := 5, title := "cats", description := "a cat video",
      videoFile := "http://res.cloudinary.com/demo/video/upload/v1/clip.mp4",
      thumbnail := "http://res.cloudinary.com/demo/image/upload/v1/thumb.png", owner := 1 }
    (by decide) (by decide) (by decide)).2

/-! ## Object storage -/

/-- C25. For a non-empty local path, after `uploadOnCloudinary` no file is left
at that path and every other local file is as before; when the file was there
(as it is for an uploaded file), the call returns: the response of the storage
when the upload succeeded, the caught error when it threw; exactly one upload
was asked of the storage. For an absent or empty path it returns `null` and
leaves everything as it was. -/
theorem uploadOnCloudinary_removes_local_file (ctx : Ctx) (s : Store) (path : String)
    (hpath : path ≠ "") :
    path ∉ (uploadOnCloudinary ctx (some path) s).2.localFiles ∧
      (∀ f, f ≠ path →
        (f ∈ (uploadOnCloudinary ctx (some path) s).2.localFiles ↔ f ∈ s.localFiles)) ∧
      (uploadOnCloudinary ctx (some path) s).2.cloudLog = s.cloudLog ++ [.upload path] ∧
      (path ∈ s.localFiles → ∀ url, ctx.upload path = some url →
        (uploadOnCloudinary ctx (some path) s).1 = .ok (.response url)) ∧
      (path ∈ s.localFiles → ctx.upload path = none →
        (uploadOnCloudinary ctx (some path) s).1 = .ok .error) ∧
      uploadOnCloudinary ctx none s = (.ok .null, s) ∧
      uploadOnCloudinary ctx (some "") s = (.ok .null, s) := by
  have ht : truthy (some path) = true := by simp [truthy, hpath]
  refine ⟨?_, ?_, ?_, ?_, ?_, rfl, rfl⟩
  · by_cases hmem : path ∈ s.localFiles
    · cases hu : ctx.upload path <;>
        simp [uploadOnCloudinary, unlinkSync, ht, hu, hmem, List.mem_filter]
    · cases hu : ctx.upload path <;>
        simp [uploadOnCloudinary, unlinkSync, ht, hu, hmem]
  · intro f hf
    by_cases hmem : path ∈ s.localFiles
    · cases hu : ctx.upload path <;>
        simp [uploadOnCloudinary, unlinkSync, ht, hu, hmem, List.mem_filter, hf]
    · cases hu : ctx.upload path <;>
        simp [uploadOnCloudinary, unlinkSync, ht, hu, hmem]
  · by_cases hmem : path ∈ s.localFiles
    · cases hu : ctx.upload path <;>
        simp [uploadOnCloudinary, unlinkSync, ht, hu, hmem]
    · cases hu : ctx.upload path <;>
        simp [uploadOnCloudinary, unlinkSync, ht, hu, hmem]
  · intro hmem url hu
    simp [uploadOnCloudinary, unlinkSync, ht, hu, hmem]
  · intro hmem hu
    simp [uploadOnCloudinary, unlinkSync, ht, hu, hmem]

/-- The upload of the file waiting at `/tmp/cover.png` in the account store. -/
theorem uploadOnCloudinary_removes_local_file_witness :
    "/tmp/cover.png" ∉
        (uploadOnCloudinary uploadingCtx (some "/tmp/cover.png") accountStore).2.localFiles ∧
      (uploadOnCloudinary uploadingCtx (some "/tmp/cover.png") accountStore).1 =
        .ok (.response "http://res.cloudinary.com/demo/image/upload/v1/cover.png") :=
  have h := uploadOnCloudinary_removes_local_file uploadingCtx accountStore "/tmp/cover.png"
    (by decide)
  ⟨h.1, h.2.2.2.1 (by decide) _ rfl⟩

/-! ## Videos of other users in playlists -/

/-- C26. `addVideoToPlaylist` with a video that another user owns fails with 403
and leaves the store as it was; whenever it succeeds, the requesting user owns
both the video and the playlist the ids resolve to; `createPlaylist` with the id
of a stored video succeeds and lists that video, whoever owns it. -/
theorem addVideoToPlaylist_needs_own_video (castObjectId : String → Option ObjectId)
    (ctx : Ctx) (s : Store) (playlistId videoId : String) (vid : ObjectId) (video : Video)
    (name description : Option String)
    (hcast : castObjectId videoId = some vid)
    (hfind : s.videos.find? (fun v => v._id == vid) = some video) :
    (playlistId ≠ "" → videoId ≠ "" → video.owner ≠ ctx.user →
        addVideoToPlaylist castObjectId ctx playlistId videoId s =
          (.error (.apiError 403 "Not allowed"), s)) ∧
      (∀ r s', addVideoToPlaylist castObjectId ctx playlistId videoId s = (.ok r, s') →
        video.owner = ctx.user ∧
          ∃ pid playlist, castObjectId playlistId = some pid ∧
            s.playlists.find? (fun p => p._id == pid) = some playlist ∧
            playlist.owner = ctx.user) ∧
      (truthy name = true → truthy description = true →
        ∃ p, (createPlaylist castObjectId ctx name description (some [videoId]) s).1 =
            .ok ⟨200, 200, some p, "Playlist created Successfully"⟩ ∧
          vid ∈ p.videos ∧ p.owner = ctx.user) := by
  refine ⟨fun hp hv hne => ?_, fun r s' hok => ?_, fun hn hd => ?_⟩
  · simp [addVideoToPlaylist, hp, hv, hcast, hfind, hne]
  · unfold addVideoToPlaylist at hok
    simp only [hcast, hfind] at hok
    split at hok
    · cases hok
    · split at hok
      · cases hok
      · rename_i hown
        refine ⟨not_not.1 hown, ?_⟩
        split at hok
        · cases hok
        · rename_i pid hpid
          split at hok
          · cases hok
          · rename_i playlist hpl
            split at hok
            · cases hok
            · rename_i hpown
              exact ⟨pid, playlist, hpid, hpl, not_not.1 hpown⟩
  · have hq : Qualifies castObjectId s [videoId] vid :=
      ⟨⟨videoId, List.mem_singleton.2 rfl, hcast⟩, video, List.mem_of_find?_eq_some hfind,
        by simpa using List.find?_some hfind⟩
    have hmem := (mem_existingVideos castObjectId s [videoId] vid).2 hq
    have hlen : ¬ (((s.videos.filter (fun x =>
          ([videoId].filter (fun id => isValidObjectId castObjectId id)).any
            (fun id => castObjectId id == some x._id))).map (fun x => x._id)).dedup).length < 1 := by
      rw [length_lt_one_iff]
      exact fun h => h vid hmem
    refine ⟨{ _id := s.nextId, name := name.getD "", description := description.getD "",
              videos := ((s.videos.filter (fun x =>
                ([videoId].filter (fun id => isValidObjectId castObjectId id)).any
                  (fun id => castObjectId id == some x._id))).map (fun x => x._id)).dedup,
              owner := ctx.user, createdAt := ctx.now }, ?_, hmem, rfl⟩
    simp only [createPlaylist, hn, hd, hlen, Option.getD_some]
    rfl

/-- User 2 adding the video of user 1 to a playlist, and creating a playlist with it. -/
theorem addVideoToPlaylist_needs_own_video_witness :
    addVideoToPlaylist hexObjectId { user := 2 } id3 id5 playlistStore =
        (.error (.apiError 403 "Not allowed"), playlistStore) ∧
      ∃ p, (createPlaylist hexObjectId { user := 2 } (some "mix") (some "my mix")
            (some [id5]) playlistStore).1 =
          .ok ⟨200, 200, some p, "Playlist created Successfully"⟩ ∧
        5 ∈ p.videos ∧ p.owner = 2 :=
  have h := addVideoToPlaylist_needs_own_video hexObjectId { user := 2 } playlistStore id3 id5 5
    { _id := 5, title := "cats", description := "a cat video",
      videoFile := "http://res.cloudinary.com/demo/video/upload/v1/clip.mp4",
      thumbnail := "http://res.cloudinary.com/demo/image/upload/v1/thumb.png", owner := 1 }
    (some "mix") (some "my mix") (by decide) (by decide)
  ⟨h.1 (by decide) (by decide) (by decide), h.2.2 (by decide) (by decide)⟩

/-- C27. For a non-empty url, `deleteFromCloudinary` asks the storage once to
destroy the public id that is the part of the last `/`-separated segment of the
url before its first `.`, with resource type `video` when the url contains
`/video/` and `image` otherwise, and returns what the storage answers; that
public id contains neither `/` nor `.`. For an absent or empty url it returns
`null` and asks nothing of the storage. -/
theorem deleteFromCloudinary_requests (ctx : Ctx) (s : Store) (url : String)
    (hurl : url ≠ "") :
    deleteFromCloudinary ctx (some url) s =
        (ctx.destroy (specPublicId url) (specResourceType url),
          { s with
            cloudLog := s.cloudLog ++ [.destroy (specPublicId url) (specResourceType url)] }) ∧
      '/' ∉ (specPublicId url).data ∧ '.' ∉ (specPublicId url).data ∧
      deleteFromCloudinary ctx none s = (none, s) ∧
      deleteFromCloudinary ctx (some "") s = (none, s) := by
  have ht : truthy (some url) = true := by simp [truthy, hurl]
  have hid : String.mk ((splitChars '.' ((splitChars '/' url.data).getLastD [])).headD []) =
      specPublicId url := by
    rw [splitChars_getLastD, splitChars_headD]
    rfl
  have hty : (if includesChars "/video/".data url.data then "video" else "image") =
      specResourceType url := by
    unfold specResourceType
    by_cases h : "/video/".data <:+: url.data
    · rw [if_pos h, if_pos ((includesChars_iff _ _).2 h)]
    · have h' : ¬ includesChars "/video/".data url.data = true :=
        fun e => h ((includesChars_iff _ _).1 e)
      rw [if_neg h, if_neg h']
  refine ⟨?_, ?_, ?_, rfl, rfl⟩
  · simp only [deleteFromCloudinary, ht, Bool.not_true, Bool.false_eq_true, if_false,
      Option.getD_some, hid, hty]
  · intro h
    exact not_mem_afterLast '/' url.data (mem_of_mem_beforeFirst '.' '/' _ h)
  · exact not_mem_beforeFirst '.' _

/-- The media file of video 5: the public id `clip` is destroyed as a video. -/
theorem deleteFromCloudinary_requests_witness :
    (deleteFromCloudinary { user := 1 }
        (some "http://res.cloudinary.com/demo/video/upload/v1/clip.mp4") demoStore).2.cloudLog =
      [.destroy "clip" "video"] := by
  have h := (deleteFromCloudinary_requests { user := 1 } demoStore
    "http://res.cloudinary.com/demo/video/upload/v1/clip.mp4" (by decide)).1
  rw [h]
  rfl

/-! ## Order of the stages -/

/-- C24, as stated, fails for three pipelines: `getVideoComments` sorts before
its `$addFields` and `$project` stages, and `getUserPlaylist` and
`getPlaylistById` have a `$lookup` after their `$addFields` stage. -/
theorem stage_order_counterexample :
    getVideoCommentsPipeline.map Stage.kind =
        [.matching, .lookup, .sort, .addFields, .project] ∧
      ¬ InFixedOrder getVideoCommentsPipeline ∧
      ¬ SortAfterAddFields getVideoCommentsPipeline ∧
      getUserPlaylistPipeline.map Stage.kind =
        [.matching, .lookup, .addFields, .lookup, .project] ∧
      ¬ InFixedOrder getUserPlaylistPipeline ∧
      ¬ InFixedOrder getPlaylistByIdPipeline := by
  refine ⟨rfl, by decide, by decide, rfl, by decide, by decide⟩

/-- C24, amended. The pipelines of `getAllVideos`, `getChannelVideos` and
`getUserChannelProfile` have their stages in the order match, lookup, addFields,
project, sort. In all six pipelines the first stage is the `$match` stage and the
`$project` stage comes after every `$lookup` and `$addFields` stage; in all but
the one of `getVideoComments` no `$addFields` stage follows a `$sort` stage. -/
theorem stage_order_of_pipelines (q : ListQuery) :
    (InFixedOrder (getAllVideosPipeline q) ∧ InFixedOrder (getChannelVideosPipeline q) ∧
        InFixedOrder getUserChannelProfilePipeline) ∧
      (((getAllVideosPipeline q).map Stage.kind).head? = some .matching ∧
        ((getChannelVideosPipeline q).map Stage.kind).head? = some .matching ∧
        (getVideoCommentsPipeline.map Stage.kind).head? = some .matching ∧
        (getUserPlaylistPipeline.map Stage.kind).head? = some .matching ∧
        (getPlaylistByIdPipeline.map Stage.kind).head? = some .matching ∧
        (getUserChannelProfilePipeline.map Stage.kind).head? = some .matching) ∧
      (ProjectAfterJoins (getAllVideosPipeline q) ∧
        ProjectAfterJoins (getChannelVideosPipeline q) ∧
        ProjectAfterJoins getVideoCommentsPipeline ∧
        ProjectAfterJoins getUserPlaylistPipeline ∧
        ProjectAfterJoins getPlaylistByIdPipeline ∧
        ProjectAfterJoins getUserChannelProfilePipeline) ∧
      (SortAfterAddFields (getAllVideosPipeline q) ∧
        SortAfterAddFields (getChannelVideosPipeline q) ∧
        SortAfterAddFields getUserPlaylistPipeline ∧
        SortAfterAddFields getPlaylistByIdPipeline ∧
        SortAfterAddFields getUserChannelProfilePipeline) := by
  refine ⟨⟨?_, ?_, by decide⟩, ⟨rfl, rfl, rfl, rfl, rfl, rfl⟩,
    ⟨?_, ?_, by decide, by decide, by decide, by decide⟩,
    ⟨?_, ?_, by decide, by decide, by decide⟩⟩
  all_goals
    simp only [InFixedOrder, ProjectAfterJoins, SortAfterAddFields, getAllVideosPipeline,
      getChannelVideosPipeline, List.map, Stage.kind, StageKind.rank]
    decide

/-! ## Ties in the sort key -/

/-- C22, counterexample: the sort specification of `getAllVideos` for
`sortBy = "views"`, `sortType = "asc"` is the single key `views`, without a
further key for ties. The stores `stableStore` and `reversingStore` both keep
what a `$sort` promises and give the same verdict on every specification, and on
the one store state `tieStore`, whose three videos have 5 views each, the same
request is answered with the videos 5, 6, 7 by the one and 7, 6, 5 by the
other, and the first page of one holds video 5 or video 7. The same holds for
`getChannelVideos` and for the three comments of video 5, written at the same
instant, under `getVideoComments`. -/
theorem sort_ties_counterexample :
    sortSpecs (getAllVideosPipeline { sortBy := some "views", sortType := some "asc" }) =
      [[("views", 1)]] ∧
    sortSpecs (getChannelVideosPipeline { sortBy := some "views", channelId := some id1 }) =
      [[("views", 1)]] ∧
    sortSpecs getVideoCommentsPipeline = [[("createdAt", -1)]] ∧
    stableStore.Sorts ∧ reversingStore.Sorts ∧ reversingStore.reject = stableStore.reject ∧
    (getAllVideos hexObjectId containsIgnoreCase stableStore
        { sortBy := some "views", sortType := some "asc" } tieStore).1.toOption.map
      (fun r => r.data.docs.map (fun d => (d._id, d.views, d.createdAt))) =
      some [(5, 5, 200), (6, 5, 100), (7, 5, 300)] ∧
    (getAllVideos hexObjectId containsIgnoreCase reversingStore
        { sortBy := some "views", sortType := some "asc" } tieStore).1.toOption.map
      (fun r => r.data.docs.map (fun d => (d._id, d.views, d.createdAt))) =
      some [(7, 5, 300), (6, 5, 100), (5, 5, 200)] ∧
    (getAllVideos hexObjectId containsIgnoreCase stableStore
        { sortBy := some "views", sortType := some "asc", limit := some 1 }
        tieStore).1.toOption.map (fun r => r.data.docs.map (fun d => d._id)) = some [5] ∧
    (getAllVideos hexObjectId containsIgnoreCase reversingStore
        { sortBy := some "views", sortType := some "asc", limit := some 1 }
        tieStore).1.toOption.map (fun r => r.data.docs.map (fun d => d._id)) = some [7] ∧
    (getChannelVideos hexObjectId stableStore { sortBy := some "views", channelId := some id1 }
        tieStore).1.toOption.map (fun r => r.data.docs.map (fun d => d._id)) =
      some [5, 6, 7] ∧
    (getChannelVideos hexObjectId reversingStore
        { sortBy := some "views", channelId := some id1 }
        tieStore).1.toOption.map (fun r => r.data.docs.map (fun d => d._id)) =
      some [7, 6, 5] ∧
    (getVideoComments hexObjectId stableStore id5 none none tieStore).1.toOption.map
      (fun r => r.data.docs.map (fun d => d._id)) = some [52, 50, 51] ∧
    (getVideoComments hexObjectId reversingStore id5 none none tieStore).1.toOption.map
      (fun r => r.data.docs.map (fun d => d._id)) = some [51, 50, 52] :=
  ⟨rfl, rfl, rfl, stableStore_sorts, reversingStore_sorts, rfl, rfl, rfl, rfl, rfl, rfl, rfl,
    rfl, rfl⟩

/-- C22, amended: the `$sort` stage of `getAllVideos` and of `getChannelVideos`
holds the object built from `sortBy`, which has the single key `sortBy` (and no
key for "__proto__"), and that of `getVideoComments` the single key `createdAt`;
no further key breaks a tie. For stores that keep what a `$sort` promises and
give the same verdict on a specification, the reply of each handler is the same
for every such store and every arrangement of the collection when no two rows
tie in the key (for the videos: no two published videos, with `sortBy` other
than "__proto__"; for the comments: no two comments of one video). -/
theorem sort_has_single_key (castObjectId : String → Option ObjectId)
    (regexTest : String → String → Bool) (sorter sorter' : StoreSort) (q : ListQuery)
    (videoId : String) (page limit : Option Int) (s : Store)
    (h : sorter.Sorts) (h' : sorter'.Sorts) (hr : sorter'.reject = sorter.reject) :
    sortSpecs (getAllVideosPipeline q) =
      [sortObject (q.sortBy.getD "undefined") (if q.sortType = some "asc" then 1 else -1)] ∧
    sortSpecs (getChannelVideosPipeline q) = [sortObject (q.sortBy.getD "undefined") 1] ∧
    sortSpecs getVideoCommentsPipeline = [[("createdAt", -1)]] ∧
    (∀ direction : Int,
      sortObject (q.sortBy.getD "undefined") direction =
        if q.sortBy = some "__proto__" then []
        else [(q.sortBy.getD "undefined", direction)]) ∧
    (∀ videos : List Video, s.videos.Perm videos → q.sortBy ≠ some "__proto__" →
      NoTies (fun v => VideoRow.field (q.sortBy.getD "undefined") (allVideosRow s v))
        (s.videos.filter (fun v => v.isPublished)) →
      (getAllVideos castObjectId regexTest sorter' q { s with videos := videos }).1 =
        (getAllVideos castObjectId regexTest sorter q s).1) ∧
    (∀ videos : List Video, s.videos.Perm videos → q.sortBy ≠ some "__proto__" →
      NoTies (fun v => VideoRow.field (q.sortBy.getD "undefined") (channelVideosRow v))
        (s.videos.filter (fun v => v.isPublished)) →
      (getChannelVideos castObjectId sorter' q { s with videos := videos }).1 =
        (getChannelVideos castObjectId sorter q s).1) ∧
    (∀ comments : List Comment, s.comments.Perm comments →
      s.comments.Pairwise (fun a b => a.video = b.video → a.createdAt ≠ b.createdAt) →
      (getVideoComments castObjectId sorter' videoId page limit
          { s with comments := comments }).1 =
        (getVideoComments castObjectId sorter videoId page limit s).1) := by
  refine ⟨rfl, rfl, rfl, fun direction => ?_,
    fun videos hp hproto hk =>
      getAllVideos_determined castObjectId regexTest h h' hr q s videos hp hproto hk,
    fun videos hp hproto hk =>
      getChannelVideos_determined castObjectId h h' hr q s videos hp hproto hk,
    fun comments hp hk =>
      getVideoComments_determined castObjectId h h' hr videoId page limit s comments hp hk⟩
  by_cases hproto : q.sortBy = some "__proto__"
  · rw [if_pos hproto, hproto]
    rfl
  · rw [if_neg hproto]
    exact sortObject_of_ne q.sortBy direction hproto

/-- C22, witness: the three videos of `tieStore` differ in `createdAt`, so the
listing by `createdAt` of `reversingStore` on the collection held in the
opposite order is that of `stableStore` on the collection as it is. -/
theorem sort_has_single_key_witness :
    stableStore.Sorts ∧ reversingStore.Sorts ∧ reversingStore.reject = stableStore.reject ∧
    tieStore.videos.Perm tieStore.videos.reverse ∧
    NoTies (fun v => VideoRow.field "createdAt" (allVideosRow tieStore v))
      (tieStore.videos.filter (fun v => v.isPublished)) ∧
    (getAllVideos hexObjectId containsIgnoreCase reversingStore
        { sortBy := some "createdAt", sortType := some "asc" }
        { tieStore with videos := tieStore.videos.reverse }).1 =
      (getAllVideos hexObjectId containsIgnoreCase stableStore
        { sortBy := some "createdAt", sortType := some "asc" } tieStore).1 :=
  ⟨stableStore_sorts, reversingStore_sorts, rfl, (List.reverse_perm _).symm, by decide,
    (sort_has_single_key hexObjectId containsIgnoreCase stableStore reversingStore
      { sortBy := some "createdAt", sortType := some "asc" } id5 none none tieStore
      stableStore_sorts reversingStore_sorts rfl).2.2.2.2.1
      _ (List.reverse_perm _).symm (by decide) (by decide)⟩

end MyTube
